import Mathlib

/-!
Shallow embedding of the TicketHunter task-scheduling and ingestion pipeline
(`app.py`, `database.py` of the zp-hackthon repository).

Modelling conventions:
* The SQLite/SQLAlchemy store is modelled as lists of records (`notes`,
  `tickets`, `tasks`) inside a single system state `Sys`, together with the
  scheduler registry `Monitor.task_jobs` (the set of task ids that have a
  registered APScheduler job), the set of paused jobs, and the global
  `event_queue` (a FIFO list, front = oldest message).
* `db.session.add` + `flush`/`commit` of a record is modelled as appending the
  record to the corresponding list; `db.session.rollback()` in
  `process_single_feed` runs in a fresh application context and is a no-op on
  already-flushed data, so it is modelled as the identity.
* Timestamps are natural numbers; the ambient wall-clock time is passed in as
  a `now : Nat` parameter.
* Network collaborators (Zhipu AI, the xiaohongshu MCP service) are modelled
  by explicit input values describing the response that the surrounding code
  observes (a successful payload, a non-200 status, or a raised exception).
* Python dict truthiness: a missing key, `None`, an empty string and an empty
  dict are all falsy; `Option` together with explicit `= ""` tests encodes
  exactly the checks the code performs.
-/

namespace TicketHunter

/-- A persisted note record (`database.py`, class `Note`).  `created_at` is the
persistence timestamp (the code also stores a `create_time`; only one
timestamp is relevant to the claims, so a single field models both). -/
structure Note where
  note_id : String
  description : String
  note_url : String
  created_at : Nat
deriving DecidableEq, Repr

/-- A calendar date as produced by `datetime.strptime(s, "%Y-%m-%d").date()`. -/
structure PDate where
  year : Nat
  month : Nat
  day : Nat
deriving DecidableEq, Repr

/-- A persisted ticket record (`database.py`, class `Ticket`). -/
structure Ticket where
  id : Nat
  note_id : String
  is_ticket_resale : Bool
  event_name : String
  city : String
  event_date : Option PDate
  area : String
  price : String
  quantity : String
  contact : String
  notes : String
  created_at : Nat
deriving DecidableEq, Repr

/-- A task record (`database.py`, class `WorkflowExecution`). -/
structure WorkflowExecution where
  id : Nat
  code : Nat
  msg : String
  status : String
  message : String
  is_scheduled : Bool
  schedule_interval : Nat
  last_run_at : Option Nat
  next_run_at : Option Nat
  run_count : Nat
  created_at : Nat
deriving DecidableEq, Repr

/-- The flattened ticket snapshot placed in `result['ticket']` by
`process_single_feed` and forwarded in `ticket_update` events. -/
structure TicketSnapshot where
  event_name : String
  city : String
  event_date : Option String
  price : String
  area : String
  quantity : String
  contact : String
  notes : String
  note_url : String
deriving DecidableEq, Repr

/-- A message put on the global `event_queue` by `notify_clients`: the JSON
object `{'type': ..., 'data': ..., 'timestamp': ...}`.  The optional fields
model the keys that the various call sites place in `data`. -/
structure Event where
  etype : String
  task_id : Nat
  status : Option String := none
  message : Option String := none
  run_count : Option Nat := none
  last_run_at : Option Nat := none
  next_run_at : Option Nat := none
  ticket : Option TicketSnapshot := none
  action : Option String := none
  timestamp : Nat
deriving DecidableEq, Repr

/-- Whole-system state: the three database tables, the scheduler registry
(`Monitor.task_jobs` keys and the set of APScheduler-paused jobs), and the
global `event_queue` FIFO. -/
structure Sys where
  notes : List Note
  tickets : List Ticket
  tasks : List WorkflowExecution
  task_jobs : List Nat
  paused : List Nat
  queue : List Event
deriving DecidableEq, Repr

/-- The empty system state. -/
def sysEmpty : Sys := ⟨[], [], [], [], [], []⟩

/-- `WorkflowExecution.query.get(task_id)`: primary-key lookup. -/
def getTask (sys : Sys) (tid : Nat) : Option WorkflowExecution :=
  sys.tasks.find? (fun t => t.id == tid)

/-- Committing a mutation of one task record back to the store. -/
def updateTask (sys : Sys) (t : WorkflowExecution) : Sys :=
  { sys with tasks := sys.tasks.map (fun x => if x.id == t.id then t else x) }

/-- `notify_clients(event_type, data)`: builds the message and appends it to
the single global `event_queue`. -/
def notify_clients (e : Event) (sys : Sys) : Sys :=
  { sys with queue := sys.queue ++ [e] }

/-- One iteration of the subscriber loop inside the `/stream` route:
`event_queue.get(timeout=30)` returns the oldest queued message, removing it
from the (shared) queue; on an empty queue the `Empty` timeout fires and the
subscriber yields a heartbeat frame instead, modelled as `none`. -/
def stream_get (sys : Sys) : Sys × Option Event :=
  match sys.queue with
  | [] => (sys, none)
  | e :: rest => ({ sys with queue := rest }, some e)

/-- The classifier verdict dict returned by `analyze_ticket_content` (the
parsed JSON object), with the `.get(key, default)` defaults applied. -/
structure TicketInfo where
  is_ticket_resale : Bool
  event_name : String
  city : String
  event_date : Option String
  area : String
  price : String
  quantity : String
  contact : String
  notes : String
deriving DecidableEq, Repr

/-- The fail-closed verdict `{"is_ticket_resale": False}`. -/
def negativeInfo : TicketInfo :=
  ⟨false, "", "", none, "", "", "", "", ""⟩

/-- What the Zhipu AI call inside `analyze_ticket_content` produced, as
observed by the surrounding code: a raised exception, a non-200 HTTP status,
a 200 response whose accumulated text contains no JSON object, contains
unparsable JSON, or parses to a verdict dict. -/
inductive ZhipuAnalyzeResult where
  | exn (msg : String)
  | httpError (status : Nat)
  | noJsonFound (text : String)
  | badJson (text : String)
  | parsed (info : TicketInfo)
deriving DecidableEq, Repr

/-- `analyze_ticket_content`: every failure path returns
`{"is_ticket_resale": False}`; only a successfully parsed JSON object is
returned as-is. -/
def analyze_ticket_content : ZhipuAnalyzeResult → TicketInfo
  | .parsed info => info
  | _ => negativeInfo

/-- The body of the keyword-optimization HTTP response once `response.json()`
has been attempted: unparsable JSON, or a parsed object summarised by the
per-choice content strings `choices[i].get("message",{}).get("content","")`
(`none` when `message`/`content` is absent; a missing `"choices"` key defaults
to `[{}]` in the code and is represented as `[none]`, which the code treats
identically). -/
inductive OptBody where
  | badJson
  | json (choices : List (Option String))
deriving DecidableEq, Repr

/-- What the keyword-optimization HTTP call produced, as observed by
`optimize_search_keyword`: a raised exception, or a response with a status
code and body. -/
inductive OptResponse where
  | exn (msg : String)
  | resp (status : Nat) (body : OptBody)
deriving DecidableEq, Repr

/-- `optimize_search_keyword(original_keyword)`: returns the optimized keyword
on success and falls back to the original keyword on every failure path
(exception, non-200 status, unparsable body, empty `choices` list — an
`IndexError` caught by the outer handler — or empty/whitespace content). -/
def optimize_search_keyword (original : String) (r : OptResponse) : String :=
  match r with
  | .exn _ => original
  | .resp status body =>
    if status ≠ 200 then original
    else
      match body with
      | .badJson => original
      | .json choices =>
        match choices with
        | [] => original
        | c :: _ =>
          let content := (c.getD "").trim
          if content = "" then original else content

/-- Failure shapes of the keyword-optimization call: exactly the inputs on
which `optimize_search_keyword` does not obtain a non-empty optimized
keyword. -/
def isOptFailure : OptResponse → Bool
  | .exn _ => true
  | .resp status body =>
    status ≠ 200 ||
      (match body with
       | .badJson => true
       | .json [] => true
       | .json (c :: _) => (c.getD "").trim = "")

/-- `datetime.strptime(s, "%Y-%m-%d").date()` as a validator: a dash-separated
year, month and day in digits, with the month and day range checks strptime
performs (days-in-month refinements are irrelevant to the claims and are
approximated by `day ≤ 31`).  `none` models the `ValueError` strptime raises
on malformed input. -/
def parseDate (s : String) : Option PDate :=
  match s.splitOn "-" with
  | [ys, ms, ds] =>
    match ys.toNat?, ms.toNat?, ds.toNat? with
    | some y, some m, some d =>
      if 1 ≤ m ∧ m ≤ 12 ∧ 1 ≤ d ∧ d ≤ 31 then some ⟨y, m, d⟩ else none
    | _, _, _ => none
  | _ => none

/-- The conditional date parse in the `Ticket(...)` constructor call:
`strptime(...) if ticket_info.get('event_date') else None`.  A missing or
falsy (empty) `event_date` yields `some none` (a ticket without a date); a
present string either parses (`some (some d)`) or raises (`none`). -/
def parseEventDate : Option String → Option (Option PDate)
  | none => some none
  | some s => if s = "" then some none else (parseDate s).map some

/-- Zero-padded rendering used by `strftime('%Y-%m-%d')`. -/
def pad2 (n : Nat) : String :=
  if n < 10 then "0" ++ toString n else toString n

/-- `date.strftime('%Y-%m-%d')` (years below 1000 are zero-padded too). -/
def formatDate (d : PDate) : String :=
  (if d.year < 10 then "000" else if d.year < 100 then "00"
   else if d.year < 1000 then "0" else "") ++ toString d.year
    ++ "-" ++ pad2 d.month ++ "-" ++ pad2 d.day

/-- The note URL built by `process_single_feed`. -/
def noteUrl (fid : String) : String :=
  "https://www.xiaohongshu.com/explore/" ++ fid

/-- The snapshot dict built from a freshly inserted ticket. -/
def mkSnapshot (t : Ticket) (url : String) : TicketSnapshot :=
  ⟨t.event_name, t.city, t.event_date.map formatDate, t.price, t.area,
   t.quantity, t.contact, t.notes, url⟩

/-- The first `db_lock` critical section of `process_single_feed`: check
whether a note with this id already exists and, if not, add-and-flush the new
note.  Returns the updated state and whether the note was new. -/
def checkInsertNote (fid title : String) (now : Nat) (sys : Sys) : Sys × Bool :=
  if sys.notes.any (fun n => n.note_id == fid) then (sys, false)
  else
    ({ sys with notes := sys.notes ++ [⟨fid, title, noteUrl fid, now⟩] }, true)

/-- Result of the second critical section. -/
inductive CS2Result where
  | alreadyExists
  | badDate
  | inserted (snap : TicketSnapshot)
deriving DecidableEq, Repr

/-- The second `db_lock` critical section of `process_single_feed`: check for
an existing ticket on this note id; if absent, construct the `Ticket` (where
`strptime` may raise on a malformed `event_date`) and commit it. -/
def checkInsertTicket (fid : String) (info : TicketInfo) (now : Nat)
    (sys : Sys) : Sys × CS2Result :=
  if sys.tickets.any (fun t => t.note_id == fid) then (sys, .alreadyExists)
  else
    match parseEventDate info.event_date with
    | none => (sys, .badDate)
    | some d =>
      let t : Ticket :=
        ⟨sys.tickets.length + 1, fid, info.is_ticket_resale, info.event_name,
         info.city, d, info.area, info.price, info.quantity, info.contact,
         info.notes, now⟩
      ({ sys with tickets := sys.tickets ++ [t] },
       .inserted (mkSnapshot t (noteUrl fid)))

/-- The per-post result dict of `process_single_feed`. -/
structure Outcome where
  success : Bool
  is_ticket : Bool := false
  reason : Option String := none
  note_id : Option String := none
  ticket : Option TicketSnapshot := none
deriving DecidableEq, Repr

/-- One candidate item returned by the feed search; `modelType` is
`feed.get('modelType')` (with `""` standing for a missing key, which compares
unequal to `"note"` exactly like Python's `None`), `id` and `noteCard` model
`feed.get('id')` / `feed.get('noteCard', {})` with missing-or-empty values as
`none`. -/
structure NoteCard where
  displayTitle : String
deriving DecidableEq, Repr

structure Feed where
  modelType : String
  id : Option String
  noteCard : Option NoteCard
deriving DecidableEq, Repr

/-- `process_single_feed(feed, workflow_execution_id)`.  The classifier is an
input function from the note text to the verdict dict (its failure paths are
folded into `analyze_ticket_content`). -/
def process_single_feed (classify : String → TicketInfo) (now : Nat)
    (feed : Feed) (sys : Sys) : Sys × Outcome :=
  if feed.modelType ≠ "note" then
    (sys, { success := false, reason := some "not_note_type" })
  else
    match feed.id, feed.noteCard with
    | some fid, some card =>
      if fid = "" then (sys, { success := false, reason := some "incomplete_data" })
      else
        let r1 := checkInsertNote fid card.displayTitle now sys
        if r1.2 then
          let info := classify card.displayTitle
          if info.is_ticket_resale then
            let r2 := checkInsertTicket fid info now r1.1
            match r2.2 with
            | .alreadyExists =>
              (r2.1, { success := false, reason := some "ticket_exists",
                       note_id := some fid })
            | .badDate =>
              (r2.1, { success := false, reason := some "error" })
            | .inserted snap =>
              (r2.1, { success := true, is_ticket := true, ticket := some snap })
          else
            (r1.1, { success := true, is_ticket := false, note_id := some fid })
        else
          (r1.1, { success := false, reason := some "already_exists",
                   note_id := some fid })
    | _, _ => (sys, { success := false, reason := some "incomplete_data" })

/-- The store-mutating atomic steps a `process_single_feed` call can take:
its two `db_lock`-protected critical sections.  A concurrent execution of any
number of calls (the thread-pool workers of one or several runs) is an
arbitrary interleaving of such steps, i.e. an arbitrary list of `DbAction`s,
because `db_lock` serializes the critical sections and the classifier call
between them does not touch the store. -/
inductive DbAction where
  | insNote (fid title : String) (now : Nat)
  | insTicket (fid : String) (info : TicketInfo) (now : Nat)
deriving DecidableEq, Repr

/-- State effect of one atomic step. -/
def applyAction : DbAction → Sys → Sys
  | .insNote fid title now, sys => (checkInsertNote fid title now sys).1
  | .insTicket fid info now, sys => (checkInsertTicket fid info now sys).1

/-- Run a whole interleaving. -/
def runActions (acts : List DbAction) (sys : Sys) : Sys :=
  acts.foldl (fun s a => applyAction a s) sys

/-- Number of persisted note records with the given identity. -/
def noteCount (fid : String) (sys : Sys) : Nat :=
  sys.notes.countP (fun n => n.note_id == fid)

/-- Number of persisted ticket records referencing the given note identity. -/
def ticketCount (fid : String) (sys : Sys) : Nat :=
  sys.tickets.countP (fun t => t.note_id == fid)

/-- What the `client.search_feeds(...)` call produced, as observed by its
caller: a list of feeds, or a raised exception with its message. -/
inductive FetchResult where
  | ok (feeds : List Feed)
  | err (msg : String)
deriving DecidableEq, Repr

/-- The worker-pool section of `execute_scheduled_task` (lines 326-341):
process every feed and count the results with `success` and `is_ticket`
(`ticket_count`).  The `as_completed` interleaving is sequentialized in list
order; no events are emitted per result in this path. -/
def processFeeds (classify : String → TicketInfo) (now : Nat)
    (feeds : List Feed) (sys : Sys) : Sys × Nat :=
  feeds.foldl
    (fun st f =>
      let pr := process_single_feed classify now f st.1
      (pr.1, st.2 + (if pr.2.success && pr.2.is_ticket then 1 else 0)))
    (sys, 0)

/-- The `try:` block of `execute_scheduled_task` (lines 301-365): optimize the
keyword, announce the search, fetch, and either process all feeds and record
the completion message, or — on a fetch exception — record the failure
message on the task (leaving its status untouched) and emit a `task_update`
event whose `status` field still says `running`. -/
def scheduled_ingestion (tid : Nat) (keyword : String) (optResp : OptResponse)
    (fetch : FetchResult) (classify : String → TicketInfo) (now : Nat)
    (sys : Sys) : Sys :=
  let ok := optimize_search_keyword keyword optResp
  let sysA := notify_clients
    { etype := "task_update", task_id := tid, status := some "running",
      message := some ("正在搜索小红书内容（" ++ ok ++ "）..."),
      timestamp := now } sys
  match fetch with
  | .err e =>
    match getTask sysA tid with
    | some t =>
      let t2 := { t with message := "执行失败: " ++ e }
      notify_clients
        { etype := "task_update", task_id := tid, status := some "running",
          message := some t2.message, timestamp := now } (updateTask sysA t2)
    | none => sysA
  | .ok feeds =>
    let sysB := notify_clients
      { etype := "task_update", task_id := tid, status := some "running",
        message := some ("找到 " ++ toString feeds.length ++ " 条笔记，正在分析..."),
        timestamp := now } sysA
    let pr := processFeeds classify now feeds sysB
    match getTask pr.1 tid with
    | some t =>
      let t2 := { t with message := "第 " ++ toString t.run_count
                    ++ " 次执行完成，发现 " ++ toString pr.2 ++ " 条新票务" }
      notify_clients
        { etype := "task_update", task_id := tid, status := some "running",
          message := some t2.message, timestamp := now } (updateTask pr.1 t2)
    | none => pr.1

/-- `execute_scheduled_task(task_id, keyword)`: the timer callback.  Re-reads
the task; skips silently unless the status is exactly `running`; otherwise
bumps the run counter and timestamps, emits a `task_update` event and runs one
ingestion. -/
def execute_scheduled_task (tid : Nat) (keyword : String)
    (optResp : OptResponse) (fetch : FetchResult)
    (classify : String → TicketInfo) (now : Nat) (sys : Sys) : Sys :=
  match getTask sys tid with
  | none => sys
  | some task =>
    if ¬(task.status = "running" ∨ task.status = "paused") then sys
    else if task.status = "paused" then sys
    else
      let rc := task.run_count + 1
      let task1 := { task with
        last_run_at := some now, run_count := rc,
        next_run_at := some (now + task.schedule_interval),
        message := "第 " ++ toString rc ++ " 次定时执行" }
      let sys1 := updateTask sys task1
      let sys2 := notify_clients
        { etype := "task_update", task_id := tid, status := some "running",
          message := some task1.message, run_count := some rc,
          last_run_at := some now, next_run_at := task1.next_run_at,
          timestamp := now } sys1
      scheduled_ingestion tid keyword optResp fetch classify now sys2

/-- Largest existing task id; the next SQLite autoincrement id is one more. -/
def nextTaskId (sys : Sys) : Nat :=
  (sys.tasks.map (fun t => t.id)).foldl max 0 + 1

/-- `Monitor.add_task_schedule`: (re)register the recurring job (replacing any
existing one, hence also un-pausing it) and write the task's `next_run_at`. -/
def add_task_schedule (tid : Nat) (interval : Nat) (now : Nat) (sys : Sys) : Sys :=
  let jobs := if sys.task_jobs.contains tid then sys.task_jobs
              else sys.task_jobs ++ [tid]
  let sys1 := { sys with task_jobs := jobs, paused := sys.paused.erase tid }
  match getTask sys1 tid with
  | some t => updateTask sys1 { t with next_run_at := some (now + interval) }
  | none => sys1

/-- The progress event inside the result loop of `execute_search_task`. -/
def progressEvent (tid processed total tc now : Nat) : Event :=
  { etype := "task_update", task_id := tid, status := some "running",
    message := some ("已处理 " ++ toString processed ++ "/" ++ toString total
      ++ " 条数据，发现 " ++ toString tc ++ " 条票务"),
    timestamp := now }

/-- Handling of one completed future inside `execute_search_task`'s
`as_completed` loop: bump `processed_notes`, emit a `ticket_update` event for
a positive result, and emit a progress event every 5 completions and on the
last one.  (`result['ticket']` can only raise if the snapshot is absent,
which the `except ... continue` would swallow, skipping the rest of the loop
body.) -/
def handle_result (tid total now : Nat) (st : Sys × Nat × Nat)
    (o : Outcome) : Sys × Nat × Nat :=
  let processed := st.2.1 + 1
  if o.success && o.is_ticket then
    match o.ticket with
    | some snap =>
      let tc := st.2.2 + 1
      let sys1 := notify_clients
        { etype := "ticket_update", task_id := tid, ticket := some snap,
          timestamp := now } st.1
      let sys2 := if processed % 5 = 0 ∨ processed = total then
          notify_clients (progressEvent tid processed total tc now) sys1
        else sys1
      (sys2, processed, tc)
    | none => (st.1, processed, st.2.2)
  else
    let sys2 := if processed % 5 = 0 ∨ processed = total then
        notify_clients (progressEvent tid processed total st.2.2 now) st.1
      else st.1
    (sys2, processed, st.2.2)

/-- The worker-pool section of `execute_search_task`: process each feed and
handle its result (sequentialized in list order).  The accumulator carries
(state, processed count, ticket count). -/
def search_loop (classify : String → TicketInfo) (now tid total : Nat)
    (feeds : List Feed) (sys : Sys) : Sys × Nat × Nat :=
  feeds.foldl
    (fun st f =>
      let pr := process_single_feed classify now f st.1
      handle_result tid total now (pr.1, st.2) pr.2)
    (sys, 0, 0)

/-- The `WorkflowExecution` record created at the start of
`execute_search_task` (the keyword optimization is pure, so recomputing it
here is equivalent to the code's single computation). -/
def createdTask (keyword : String) (optResp : OptResponse) (now : Nat)
    (sys : Sys) : WorkflowExecution :=
  { id := nextTaskId sys, code := 200,
    msg := if keyword ≠ optimize_search_keyword keyword optResp
      then keyword ++ " (优化为: " ++ optimize_search_keyword keyword optResp ++ ")"
      else keyword,
    status := "running", message := "首次执行中...", is_scheduled := true,
    schedule_interval := 60, last_run_at := none, next_run_at := none,
    run_count := 0, created_at := now }

/-- The `task_update` event announcing the search at the start of
`execute_search_task`. -/
def searchStartEvent (keyword : String) (optResp : OptResponse)
    (now tid : Nat) : Event :=
  { etype := "task_update", task_id := tid, status := some "running",
    message := some ("正在搜索：" ++ optimize_search_keyword keyword optResp
      ++ (if keyword ≠ optimize_search_keyword keyword optResp
          then " (优化自: " ++ keyword ++ ")" else "")),
    timestamp := now }

/-- `execute_search_task(keyword)`: the synchronous run performed when a task
is created.  Creates the task record in `running` state with scheduling
enabled, registers the recurring timer, announces the search, fetches, and
either fails the task (fetch exception), completes it with no data (empty
result), or processes all feeds with per-result events and completes. -/
def execute_search_task (keyword : String) (optResp : OptResponse)
    (fetch : FetchResult) (classify : String → TicketInfo) (now : Nat)
    (sys : Sys) : Sys × Bool :=
  let tid := nextTaskId sys
  let task := createdTask keyword optResp now sys
  let sys1 := { sys with tasks := sys.tasks ++ [task] }
  let sys2 := add_task_schedule tid 60 now sys1
  let sys3 := notify_clients (searchStartEvent keyword optResp now tid) sys2
  match fetch with
  | .err e =>
    match getTask sys3 tid with
    | some t =>
      let sys4 := updateTask sys3 { t with status := "failed", code := 500 }
      (notify_clients
        { etype := "task_update", task_id := tid, status := some "failed",
          message := some ("MCP 服务调用失败: " ++ e), timestamp := now } sys4,
       false)
    | none => (sys3, false)
  | .ok feeds =>
    if feeds.isEmpty then
      match getTask sys3 tid with
      | some t =>
        let sys4 := updateTask sys3 { t with status := "completed" }
        (notify_clients
          { etype := "task_update", task_id := tid, status := some "completed",
            message := some "未找到相关数据", timestamp := now } sys4,
         false)
      | none => (sys3, false)
    else
      let total := feeds.length
      let res := search_loop classify now tid total feeds sys3
      match getTask res.1 tid with
      | some t =>
        let sys5 := updateTask res.1 { t with status := "completed" }
        (notify_clients
          { etype := "task_update", task_id := tid, status := some "completed",
            message := some ("搜索完成，共处理 " ++ toString total
              ++ " 条数据，发现 " ++ toString res.2.2 ++ " 条票务信息"),
            timestamp := now } sys5,
         true)
      | none => (res.1, true)

/-- `Monitor.pause_task_schedule(task_id)`: if a job is registered for the id,
pause it in the scheduler and — only when the task record exists — write
`status = 'paused'`; returns whether a job was registered. -/
def pause_task_schedule (tid : Nat) (sys : Sys) : Sys × Bool :=
  if sys.task_jobs.contains tid then
    let sys1 := { sys with
      paused := if sys.paused.contains tid then sys.paused else sys.paused ++ [tid] }
    match getTask sys1 tid with
    | some t => (updateTask sys1 { t with status := "paused" }, true)
    | none => (sys1, true)
  else (sys, false)

/-- `Monitor.resume_task_schedule(task_id)`: if a job is registered, resume it
and — only when the task record exists — write `status = 'running'`. -/
def resume_task_schedule (tid : Nat) (sys : Sys) : Sys × Bool :=
  if sys.task_jobs.contains tid then
    let sys1 := { sys with paused := sys.paused.erase tid }
    match getTask sys1 tid with
    | some t => (updateTask sys1 { t with status := "running" }, true)
    | none => (sys1, true)
  else (sys, false)

/-- `Monitor.remove_task_schedule(task_id)`: if a job is registered, remove it
permanently and — only when the task record exists — disable scheduling and
write `status = 'stopped'`. -/
def remove_task_schedule (tid : Nat) (sys : Sys) : Sys × Bool :=
  if sys.task_jobs.contains tid then
    let sys1 := { sys with
      task_jobs := sys.task_jobs.erase tid,
      paused := sys.paused.erase tid }
    match getTask sys1 tid with
    | some t =>
      (updateTask sys1 { t with status := "stopped", is_scheduled := false }, true)
    | none => (sys1, true)
  else (sys, false)

/-- Whether a ticket is selected by the deletion query of `delete_task`:
`Ticket.query.join(Note).filter(Ticket.created_at >= task_created_at)` —
the ticket's note must exist (inner join) and its persistence timestamp must
be at or after the task's creation timestamp. -/
def delSelected (tca : Nat) (notes : List Note) (t : Ticket) : Bool :=
  decide (tca ≤ t.created_at) && notes.any (fun n => n.note_id == t.note_id)

/-- The `/tasks/<id>/delete` route: remove the schedule, then — when the task
exists — delete the tickets selected by the join query, delete exactly the
notes referenced by those tickets, delete the task record, and emit a
`deleted` event. -/
def delete_task (tid : Nat) (now : Nat) (sys : Sys) : Sys × Bool :=
  let sys1 := (remove_task_schedule tid sys).1
  match getTask sys1 tid with
  | none => (sys1, false)
  | some task =>
    let tca := task.created_at
    let delT := sys1.tickets.filter (delSelected tca sys1.notes)
    let noteIds := delT.map (fun t => t.note_id)
    let sys2 := { sys1 with
      tickets := sys1.tickets.filter (fun t => !(delSelected tca sys1.notes t)),
      notes := sys1.notes.filter (fun n => !(noteIds.contains n.note_id)),
      tasks := sys1.tasks.filter (fun x => !(x.id == tid)) }
    (notify_clients
      { etype := "task_update", task_id := tid, action := some "deleted",
        timestamp := now } sys2, true)

/-! Concrete example inputs used to instantiate the theorems. -/

/-- A classifier oracle that always returns a positive resale verdict. -/
def classifyPos : String → TicketInfo :=
  fun _ => ⟨true, "E", "C", none, "A", "P", "Q", "K", "N"⟩

/-- A classifier oracle that always returns the fail-closed negative verdict. -/
def classifyNeg : String → TicketInfo := fun _ => negativeInfo

/-- A well-formed note-type feed item. -/
def feed1 : Feed := ⟨"note", some "f1", some ⟨"title1"⟩⟩

/-- A task record in `running` state created at time 5. -/
def task1ex : WorkflowExecution :=
  ⟨1, 200, "kw", "running", "", true, 60, none, none, 0, 5⟩

/-- System with one running task whose timer is registered. -/
def sysT : Sys := { sysEmpty with tasks := [task1ex], task_jobs := [1] }

/-- System with the same task paused. -/
def sysP : Sys :=
  { sysEmpty with tasks := [{ task1ex with status := "paused" }], task_jobs := [1] }

/-- System that already contains a note with identity `f1`. -/
def sysF1 : Sys :=
  { sysEmpty with notes := [⟨"f1", "old", noteUrl "f1", 3⟩] }

/-- System with a running task created at 5 and one later note with no ticket. -/
def sysC3 : Sys := { sysT with notes := [⟨"a", "d", "u", 20⟩] }

/-- System with a registered timer for task 7 but no task record. -/
def sysGhost : Sys := { sysEmpty with task_jobs := [7] }

/-- A concrete event for the queue experiments. -/
def evC6 : Event := { etype := "ticket_update", task_id := 1, timestamp := 7 }

/-- A concrete positive verdict dict. -/
def infoPos : TicketInfo := ⟨true, "E", "C", none, "A", "P", "Q", "K", "N"⟩


/-- Task for the C3 deletion example, created at time 10. -/
def taskC3w : WorkflowExecution :=
  ⟨1, 200, "kw", "running", "", true, 60, none, none, 0, 10⟩

/-- Store for the C3 deletion example: an early ticket (persisted at 4, before
the task) on note `old`, a late ticket (persisted at 30) on note `b`, and an
unreferenced late note `c`. -/
def sysC3w : Sys :=
  { sysEmpty with
    tasks := [taskC3w],
    task_jobs := [1],
    notes := [⟨"old", "d0", "u0", 2⟩, ⟨"b", "d1", "u1", 25⟩, ⟨"c", "d2", "u2", 26⟩],
    tickets := [⟨1, "old", true, "E0", "C0", none, "", "", "", "", "", 4⟩,
                ⟨2, "b", true, "E1", "C1", none, "", "", "", "", "", 30⟩] }

/-! ### Helper lemmas -/

theorem find?_map_overwrite (l : List WorkflowExecution) (tid : Nat)
    (t t' : WorkflowExecution) (h : l.find? (fun x => x.id == tid) = some t)
    (h2 : t'.id = t.id) :
    (l.map (fun x => if x.id == t'.id then t' else x)).find?
      (fun x => x.id == tid) = some t' := by
  have htid : t.id = tid := by simpa using List.find?_some h
  induction l with
  | nil => simp at h
  | cons a as ih =>
    cases hpa : (a.id == tid) with
    | true =>
      have ha : a.id = tid := by simpa using hpa
      have hat : a = t := by
        rw [List.find?_cons_of_pos (p := fun x => x.id == tid) as hpa] at h
        exact (Option.some.injEq _ _).mp h
      simp only [List.map_cons]
      rw [if_pos (by rw [hat, h2]; simp)]
      exact List.find?_cons_of_pos _ (by simp [h2, htid])
    | false =>
      have ha : a.id ≠ tid := by simpa using hpa
      have h' : as.find? (fun x => x.id == tid) = some t := by
        rw [List.find?_cons_of_neg (p := fun x => x.id == tid) as
          (by simp [hpa])] at h
        exact h
      simp only [List.map_cons]
      rw [if_neg (by rw [h2, htid]; simpa using ha)]
      rw [List.find?_cons_of_neg _ (by simp [hpa])]
      exact ih h'

theorem getTask_updateTask (sys : Sys) (tid : Nat) (t t' : WorkflowExecution)
    (h : getTask sys tid = some t) (h2 : t'.id = t.id) :
    getTask (updateTask sys t') tid = some t' :=
  find?_map_overwrite sys.tasks tid t t' h h2

theorem find?_filter_ne (l : List WorkflowExecution) (tid : Nat) :
    (l.filter (fun x => !(x.id == tid))).find? (fun x => x.id == tid) = none := by
  rw [List.find?_eq_none]
  intro x hx
  have := (List.mem_filter.mp hx).2
  simp at this ⊢
  exact this

theorem le_foldl_max (l : List Nat) (a : Nat) : a ≤ l.foldl max a := by
  induction l generalizing a with
  | nil => exact le_refl a
  | cons b bs ih => exact le_trans (le_max_left a b) (ih (max a b))

theorem mem_le_foldl_max (l : List Nat) (a x : Nat) (hx : x ∈ l) :
    x ≤ l.foldl max a := by
  induction l generalizing a with
  | nil => cases hx
  | cons b bs ih =>
    rw [List.foldl_cons]
    rcases List.mem_cons.mp hx with h | h
    · subst h; exact le_trans (le_max_right a x) (le_foldl_max bs (max a x))
    · exact ih (max a b) h

theorem nextTaskId_fresh (sys : Sys) :
    ∀ t ∈ sys.tasks, (t.id == nextTaskId sys) = false := by
  intro t ht
  have h1 : t.id ≤ (sys.tasks.map (fun t => t.id)).foldl max 0 :=
    mem_le_foldl_max _ 0 _ (List.mem_map_of_mem _ ht)
  have : t.id ≠ nextTaskId sys := by unfold nextTaskId; omega
  simpa using this

theorem find?_append_fresh (l : List WorkflowExecution) (task : WorkflowExecution)
    (h : ∀ t ∈ l, (t.id == task.id) = false) :
    (l ++ [task]).find? (fun x => x.id == task.id) = some task := by
  induction l with
  | nil => simp
  | cons a as ih =>
    rw [List.cons_append,
      List.find?_cons_of_neg _ (by simp [h a (List.mem_cons_self a as)])]
    exact ih (fun t ht => h t (List.mem_cons_of_mem a ht))

/-- C9: keyword optimization fails open — on every failure shape
(exception, non-200 status, unparsable body, missing/empty `choices`, empty
content) `optimize_search_keyword` returns the original keyword unchanged;
as a total Lean function it can never raise to its caller, so task creation
is never blocked by an optimization failure. -/
theorem c9_optimize_keyword_fails_open (original : String) (r : OptResponse)
    (h : isOptFailure r = true) :
    optimize_search_keyword original r = original := by
  cases r with
  | exn m => rfl
  | resp status body =>
    by_cases hs : status = 200
    · subst hs
      cases body with
      | badJson => simp [optimize_search_keyword]
      | json choices =>
        cases choices with
        | nil => simp [optimize_search_keyword]
        | cons c cs =>
          have hc : (c.getD "").trim = "" := by
            simpa [isOptFailure] using h
          simp [optimize_search_keyword, hc]
    · simp [optimize_search_keyword, hs]

/-- C9 witness: a concrete failing call (HTTP 500 with an unparsable body)
returns the original keyword. -/
theorem c9_witness :
    optimize_search_keyword "周杰伦演唱会" (.resp 500 .badJson) = "周杰伦演唱会" :=
  c9_optimize_keyword_fails_open "周杰伦演唱会" (.resp 500 .badJson) (by decide)

/-- C10: for a task id with a registered timer but no task record in the
store, `pause_task_schedule`, `resume_task_schedule` and
`remove_task_schedule` all act on the timer registry and return `true`,
while leaving every store table (tasks, notes, tickets) unchanged: the
documented status write is silently skipped rather than reported as a
failure. -/
theorem c10_ghost_task_schedule_ops (sys : Sys) (tid : Nat)
    (hjob : sys.task_jobs.contains tid = true)
    (htask : getTask sys tid = none) :
    ((pause_task_schedule tid sys).2 = true ∧
     (pause_task_schedule tid sys).1.tasks = sys.tasks ∧
     (pause_task_schedule tid sys).1.notes = sys.notes ∧
     (pause_task_schedule tid sys).1.tickets = sys.tickets ∧
     (pause_task_schedule tid sys).1.paused.contains tid = true) ∧
    ((resume_task_schedule tid sys).2 = true ∧
     (resume_task_schedule tid sys).1.tasks = sys.tasks ∧
     (resume_task_schedule tid sys).1.notes = sys.notes ∧
     (resume_task_schedule tid sys).1.tickets = sys.tickets ∧
     (resume_task_schedule tid sys).1.paused = sys.paused.erase tid) ∧
    ((remove_task_schedule tid sys).2 = true ∧
     (remove_task_schedule tid sys).1.tasks = sys.tasks ∧
     (remove_task_schedule tid sys).1.notes = sys.notes ∧
     (remove_task_schedule tid sys).1.tickets = sys.tickets ∧
     (remove_task_schedule tid sys).1.task_jobs = sys.task_jobs.erase tid) := by
  have hp : getTask { sys with
      paused := if sys.paused.contains tid then sys.paused else sys.paused ++ [tid] }
      tid = none := htask
  have hr : getTask { sys with paused := sys.paused.erase tid } tid = none := htask
  have hm : getTask { sys with
      task_jobs := sys.task_jobs.erase tid,
      paused := sys.paused.erase tid } tid = none := htask
  have e1 : pause_task_schedule tid sys =
      ({ sys with paused := if sys.paused.contains tid then sys.paused
          else sys.paused ++ [tid] }, true) := by
    unfold pause_task_schedule
    rw [if_pos hjob]
    simp only [hp]
  have e2 : resume_task_schedule tid sys =
      ({ sys with paused := sys.paused.erase tid }, true) := by
    unfold resume_task_schedule
    rw [if_pos hjob]
    simp only [hr]
  have e3 : remove_task_schedule tid sys =
      ({ sys with
          task_jobs := sys.task_jobs.erase tid,
          paused := sys.paused.erase tid }, true) := by
    unfold remove_task_schedule
    rw [if_pos hjob]
    simp only [hm]
  refine ⟨?_, ?_, ?_⟩
  · rw [e1]
    refine ⟨rfl, rfl, rfl, rfl, ?_⟩
    by_cases hc : tid ∈ sys.paused
    · simp [hc]
    · simp [hc]
  · rw [e2]; exact ⟨rfl, rfl, rfl, rfl, rfl⟩
  · rw [e3]; exact ⟨rfl, rfl, rfl, rfl, rfl⟩

/-- C10 witness: timer registered for task 7, no task record. -/
theorem c10_witness :
    (sysGhost.task_jobs.contains 7 = true ∧ getTask sysGhost 7 = none) ∧
    ((pause_task_schedule 7 sysGhost).2 = true ∧
     (pause_task_schedule 7 sysGhost).1.tasks = sysGhost.tasks ∧
     (pause_task_schedule 7 sysGhost).1.notes = sysGhost.notes ∧
     (pause_task_schedule 7 sysGhost).1.tickets = sysGhost.tickets ∧
     (pause_task_schedule 7 sysGhost).1.paused.contains 7 = true) ∧
    ((resume_task_schedule 7 sysGhost).2 = true ∧
     (resume_task_schedule 7 sysGhost).1.tasks = sysGhost.tasks ∧
     (resume_task_schedule 7 sysGhost).1.notes = sysGhost.notes ∧
     (resume_task_schedule 7 sysGhost).1.tickets = sysGhost.tickets ∧
     (resume_task_schedule 7 sysGhost).1.paused = sysGhost.paused.erase 7) ∧
    ((remove_task_schedule 7 sysGhost).2 = true ∧
     (remove_task_schedule 7 sysGhost).1.tasks = sysGhost.tasks ∧
     (remove_task_schedule 7 sysGhost).1.notes = sysGhost.notes ∧
     (remove_task_schedule 7 sysGhost).1.tickets = sysGhost.tickets ∧
     (remove_task_schedule 7 sysGhost).1.task_jobs = sysGhost.task_jobs.erase 7) :=
  ⟨⟨by decide, by decide⟩,
   c10_ghost_task_schedule_ops sysGhost 7 (by decide) (by decide)⟩

theorem checkInsertNote_tickets (fid title : String) (now : Nat) (sys : Sys) :
    (checkInsertNote fid title now sys).1.tickets = sys.tickets := by
  unfold checkInsertNote
  split <;> rfl

theorem checkInsertTicket_notes (fid : String) (info : TicketInfo) (now : Nat)
    (sys : Sys) :
    (checkInsertTicket fid info now sys).1.notes = sys.notes := by
  unfold checkInsertTicket
  split
  · rfl
  · split <;> rfl

theorem noteCount_checkInsertNote (fid f title : String) (now : Nat) (sys : Sys)
    (h : noteCount fid sys ≤ 1) :
    noteCount fid (checkInsertNote f title now sys).1 ≤ 1 := by
  unfold noteCount at h
  unfold checkInsertNote noteCount
  cases ha : sys.notes.any (fun n => n.note_id == f) with
  | true => simpa using h
  | false =>
    rw [if_neg (by simp)]
    show List.countP (fun n => n.note_id == fid)
      (sys.notes ++ [(⟨f, title, noteUrl f, now⟩ : Note)]) ≤ 1
    rw [List.countP_append]
    by_cases hf : f = fid
    · subst hf
      have h0 : sys.notes.countP (fun n => n.note_id == f) = 0 := by
        rw [List.countP_eq_zero]
        exact List.any_eq_false.mp ha
      simp [h0, List.countP_cons]
    · have h1 : List.countP (fun n => n.note_id == fid)
          [(⟨f, title, noteUrl f, now⟩ : Note)] = 0 := by
        simp [List.countP_cons, hf]
      omega

theorem ticketCount_checkInsertTicket (fid f : String) (info : TicketInfo)
    (now : Nat) (sys : Sys) (h : ticketCount fid sys ≤ 1) :
    ticketCount fid (checkInsertTicket f info now sys).1 ≤ 1 := by
  unfold ticketCount at h
  unfold checkInsertTicket ticketCount
  cases ha : sys.tickets.any (fun t => t.note_id == f) with
  | true => simpa using h
  | false =>
    rw [if_neg (by simp)]
    cases hd : parseEventDate info.event_date with
    | none => simpa using h
    | some d =>
      show List.countP (fun t => t.note_id == fid)
        (sys.tickets ++ [(⟨sys.tickets.length + 1, f, info.is_ticket_resale,
          info.event_name, info.city, d, info.area, info.price, info.quantity,
          info.contact, info.notes, now⟩ : Ticket)]) ≤ 1
      rw [List.countP_append]
      by_cases hf : f = fid
      · subst hf
        have h0 : sys.tickets.countP (fun t => t.note_id == f) = 0 := by
          rw [List.countP_eq_zero]
          exact List.any_eq_false.mp ha
        simp [h0, List.countP_cons]
      · have h1 : List.countP (fun t => t.note_id == fid)
            [(⟨sys.tickets.length + 1, f, info.is_ticket_resale, info.event_name,
              info.city, d, info.area, info.price, info.quantity, info.contact,
              info.notes, now⟩ : Ticket)] = 0 := by
          simp [List.countP_cons, hf]
        omega

theorem applyAction_counts (a : DbAction) (fid : String) (sys : Sys)
    (h1 : noteCount fid sys ≤ 1) (h2 : ticketCount fid sys ≤ 1) :
    noteCount fid (applyAction a sys) ≤ 1 ∧
    ticketCount fid (applyAction a sys) ≤ 1 := by
  cases a with
  | insNote f title now =>
    refine ⟨noteCount_checkInsertNote fid f title now sys h1, ?_⟩
    unfold applyAction ticketCount
    rw [checkInsertNote_tickets]
    exact h2
  | insTicket f info now =>
    refine ⟨?_, ticketCount_checkInsertTicket fid f info now sys h2⟩
    unfold applyAction noteCount
    rw [checkInsertTicket_notes]
    exact h1

theorem runActions_counts (acts : List DbAction) (fid : String) (sys : Sys)
    (h1 : noteCount fid sys ≤ 1) (h2 : ticketCount fid sys ≤ 1) :
    noteCount fid (runActions acts sys) ≤ 1 ∧
    ticketCount fid (runActions acts sys) ≤ 1 := by
  induction acts generalizing sys with
  | nil => exact ⟨h1, h2⟩
  | cons a as ih =>
    have := applyAction_counts a fid sys h1 h2
    exact ih (applyAction a sys) this.1 this.2

/-- C1: deduplication of `process_single_feed` under concurrency.  (i) Over
every interleaving of the `db_lock`-serialized critical sections of any
number of concurrent `ProcessPost` calls (an arbitrary `DbAction` trace), a
state holding at most one Post and at most one TicketOffer for a given
identity keeps holding at most one of each — in particular, starting from an
empty store at most one of each is ever persisted.  (ii) A call that finds
the Post already present returns the `already_exists` duplicate outcome with
the store unchanged and without consulting the classifier (the result is the
same for every classifier oracle, and classification is never reached). -/
theorem c1_processpost_idempotent :
    (∀ (acts : List DbAction) (fid : String) (sys : Sys),
        noteCount fid sys ≤ 1 → ticketCount fid sys ≤ 1 →
        noteCount fid (runActions acts sys) ≤ 1 ∧
        ticketCount fid (runActions acts sys) ≤ 1) ∧
    (∀ (classify : String → TicketInfo) (now : Nat) (feed : Feed) (sys : Sys)
        (fid : String) (card : NoteCard),
        feed.modelType = "note" → feed.id = some fid →
        feed.noteCard = some card → fid ≠ "" →
        sys.notes.any (fun n => n.note_id == fid) = true →
        process_single_feed classify now feed sys =
          (sys, { success := false, reason := some "already_exists",
                  note_id := some fid })) := by
  refine ⟨runActions_counts, ?_⟩
  intro classify now feed sys fid card hmt hid hcard hfid hany
  simp only [process_single_feed, hmt, hid, hcard, checkInsertNote, hany,
    ne_eq, not_true_eq_false, if_false, if_neg hfid, if_true]
  simp

/-- C1 witness: a trace in which two workers race on identity `f1` for both
the note and the ticket insert leaves at most one of each, and a call on a
feed whose note already exists returns the duplicate outcome with the store
unchanged. -/
theorem c1_witness :
    (noteCount "f1" (runActions [.insNote "f1" "t" 0, .insNote "f1" "t" 1,
        .insTicket "f1" infoPos 2, .insTicket "f1" infoPos 3] sysEmpty) ≤ 1 ∧
     ticketCount "f1" (runActions [.insNote "f1" "t" 0, .insNote "f1" "t" 1,
        .insTicket "f1" infoPos 2, .insTicket "f1" infoPos 3] sysEmpty) ≤ 1) ∧
    process_single_feed classifyPos 9 feed1 sysF1 =
      (sysF1, { success := false, reason := some "already_exists",
                note_id := some "f1" }) :=
  ⟨c1_processpost_idempotent.1 _ "f1" sysEmpty (by decide) (by decide),
   c1_processpost_idempotent.2 classifyPos 9 feed1 sysF1 "f1" ⟨"title1"⟩
     rfl rfl rfl (by decide) (by decide)⟩

/-- C5: a `ProcessPost` call on a new post flushes the Post record inside the
first critical section, before and independently of the classifier: the notes
table of the resulting state is the old table plus the new record, for every
classifier oracle and every verdict.  On a negative verdict (including a
classification failure, which `analyze_ticket_content` turns into the
fail-closed negative verdict) the call commits just the Post and returns
`success, isTicket=false`. -/
theorem c5_new_post_persisted :
    (∀ (classify : String → TicketInfo) (now : Nat) (feed : Feed) (sys : Sys)
        (fid : String) (card : NoteCard),
        feed.modelType = "note" → feed.id = some fid →
        feed.noteCard = some card → fid ≠ "" →
        sys.notes.any (fun n => n.note_id == fid) = false →
        (process_single_feed classify now feed sys).1.notes
          = sys.notes ++ [⟨fid, card.displayTitle, noteUrl fid, now⟩]) ∧
    (∀ (classify : String → TicketInfo) (now : Nat) (feed : Feed) (sys : Sys)
        (fid : String) (card : NoteCard),
        feed.modelType = "note" → feed.id = some fid →
        feed.noteCard = some card → fid ≠ "" →
        sys.notes.any (fun n => n.note_id == fid) = false →
        (classify card.displayTitle).is_ticket_resale = false →
        process_single_feed classify now feed sys =
          ({ sys with
              notes := sys.notes ++ [⟨fid, card.displayTitle, noteUrl fid, now⟩] },
           { success := true, is_ticket := false, note_id := some fid })) ∧
    (∀ r : ZhipuAnalyzeResult, (∀ info, r ≠ .parsed info) →
        (analyze_ticket_content r).is_ticket_resale = false) := by
  refine ⟨?_, ?_, ?_⟩
  · intro classify now feed sys fid card hmt hid hcard hfid hany
    simp only [process_single_feed, hmt, hid, hcard, checkInsertNote, hany,
      ne_eq, not_true_eq_false, if_false, if_neg hfid, if_true,
      Bool.false_eq_true]
    split
    · split <;> simp [checkInsertTicket_notes]
    · simp
  · intro classify now feed sys fid card hmt hid hcard hfid hany hneg
    simp only [process_single_feed, hmt, hid, hcard, checkInsertNote, hany,
      ne_eq, not_true_eq_false, if_false, if_neg hfid, if_true,
      Bool.false_eq_true, hneg]
  · intro r hr
    cases r with
    | parsed info => exact absurd rfl (hr info)
    | exn m => rfl
    | httpError s => rfl
    | noJsonFound t => rfl
    | badJson t => rfl

/-- C5 witness: a fresh post with a negative classification is persisted and
reported as a non-ticket success. -/
theorem c5_witness :
    ((process_single_feed classifyNeg 4 feed1 sysEmpty).1.notes
       = sysEmpty.notes ++ [⟨"f1", "title1", noteUrl "f1", 4⟩]) ∧
    (process_single_feed classifyNeg 4 feed1 sysEmpty =
       ({ sysEmpty with
           notes := sysEmpty.notes ++ [⟨"f1", "title1", noteUrl "f1", 4⟩] },
        { success := true, is_ticket := false, note_id := some "f1" })) ∧
    (analyze_ticket_content (.exn "timeout")).is_ticket_resale = false :=
  ⟨c5_new_post_persisted.1 classifyNeg 4 feed1 sysEmpty "f1" ⟨"title1"⟩
     rfl rfl rfl (by decide) (by decide),
   c5_new_post_persisted.2.1 classifyNeg 4 feed1 sysEmpty "f1" ⟨"title1"⟩
     rfl rfl rfl (by decide) (by decide) (by decide),
   c5_new_post_persisted.2.2 (.exn "timeout") (by intro info h; cases h)⟩


theorem updateTask_notes (sys : Sys) (t : WorkflowExecution) :
    (updateTask sys t).notes = sys.notes := rfl

theorem updateTask_tickets (sys : Sys) (t : WorkflowExecution) :
    (updateTask sys t).tickets = sys.tickets := rfl

theorem remove_sched_notes (tid : Nat) (sys : Sys) :
    (remove_task_schedule tid sys).1.notes = sys.notes := by
  unfold remove_task_schedule
  by_cases hc : sys.task_jobs.contains tid = true
  · rw [if_pos hc]
    cases hg : getTask { sys with
        task_jobs := sys.task_jobs.erase tid,
        paused := sys.paused.erase tid } tid with
    | none => simp only [hg]
    | some t => simp only [hg]; rfl
  · rw [if_neg hc]

theorem remove_sched_tickets (tid : Nat) (sys : Sys) :
    (remove_task_schedule tid sys).1.tickets = sys.tickets := by
  unfold remove_task_schedule
  by_cases hc : sys.task_jobs.contains tid = true
  · rw [if_pos hc]
    cases hg : getTask { sys with
        task_jobs := sys.task_jobs.erase tid,
        paused := sys.paused.erase tid } tid with
    | none => simp only [hg]
    | some t => simp only [hg]; rfl
  · rw [if_neg hc]

theorem remove_sched_getTask (sys : Sys) (tid : Nat) (task : WorkflowExecution)
    (h : getTask sys tid = some task) :
    ∃ task', getTask (remove_task_schedule tid sys).1 tid = some task' ∧
      task'.created_at = task.created_at := by
  unfold remove_task_schedule
  by_cases hc : sys.task_jobs.contains tid = true
  · rw [if_pos hc]
    have h1 : getTask { sys with
        task_jobs := sys.task_jobs.erase tid,
        paused := sys.paused.erase tid } tid = some task := h
    simp only [h1]
    exact ⟨{ task with status := "stopped", is_scheduled := false },
      getTask_updateTask _ tid task _ h1 rfl, rfl⟩
  · rw [if_neg hc]
    exact ⟨task, h, rfl⟩

theorem delete_task_eq (sys : Sys) (tid now : Nat) (task' : WorkflowExecution)
    (h : getTask (remove_task_schedule tid sys).1 tid = some task') :
    delete_task tid now sys =
      (notify_clients
        { etype := "task_update", task_id := tid, action := some "deleted",
          timestamp := now }
        { (remove_task_schedule tid sys).1 with
            tickets := (remove_task_schedule tid sys).1.tickets.filter
              (fun t => !(delSelected task'.created_at
                (remove_task_schedule tid sys).1.notes t)),
            notes := (remove_task_schedule tid sys).1.notes.filter
              (fun n => !((((remove_task_schedule tid sys).1.tickets.filter
                  (delSelected task'.created_at
                    (remove_task_schedule tid sys).1.notes)).map
                  (fun t => t.note_id)).contains n.note_id)),
            tasks := (remove_task_schedule tid sys).1.tasks.filter
              (fun x => !(x.id == tid)) }, true) := by
  simp only [delete_task, h]


/-- C3 counterexample: a task created at time 5 and a Post persisted at
time 20 with no TicketOffer.  `delete_task` succeeds and removes the Task,
but the Post — whose persistence timestamp (20) is after the Task's creation
timestamp (5), so the claim says it must be removed — is left untouched. -/
theorem c3_counterexample :
    (delete_task 1 100 sysC3).2 = true ∧
    getTask (delete_task 1 100 sysC3).1 1 = none ∧
    (delete_task 1 100 sysC3).1.notes = [⟨"a", "d", "u", 20⟩] := by decide

/-- C3 (amended): deleting an existing task removes exactly the TicketOffers
selected by the code's join query — those whose persistence timestamp is at
or after the task's creation timestamp and whose Post exists — together with
exactly the Posts referenced by those TicketOffers, and the Task record
itself; every other record is untouched: in particular every TicketOffer
persisted before the task's creation survives, and every Post not referenced
by a deleted TicketOffer survives, whatever its own timestamp. -/
theorem c3_delete_cascade_amended (sys : Sys) (tid now : Nat)
    (task : WorkflowExecution) (h : getTask sys tid = some task) :
    (delete_task tid now sys).2 = true ∧
    getTask (delete_task tid now sys).1 tid = none ∧
    (delete_task tid now sys).1.tickets
      = sys.tickets.filter (fun t => !(delSelected task.created_at sys.notes t)) ∧
    (delete_task tid now sys).1.notes
      = sys.notes.filter (fun n =>
          !(((sys.tickets.filter (delSelected task.created_at sys.notes)).map
              (fun t => t.note_id)).contains n.note_id)) ∧
    (∀ t ∈ sys.tickets, t.created_at < task.created_at →
        t ∈ (delete_task tid now sys).1.tickets) ∧
    (∀ n ∈ sys.notes,
        (∀ t ∈ sys.tickets, delSelected task.created_at sys.notes t = true →
           t.note_id ≠ n.note_id) →
        n ∈ (delete_task tid now sys).1.notes) := by
  obtain ⟨task', ht', hca⟩ := remove_sched_getTask sys tid task h
  have hnotes := remove_sched_notes tid sys
  have htks := remove_sched_tickets tid sys
  have heq := delete_task_eq sys tid now task' ht'
  have htickets : (delete_task tid now sys).1.tickets
      = sys.tickets.filter (fun t => !(delSelected task.created_at sys.notes t)) := by
    rw [heq]
    show (remove_task_schedule tid sys).1.tickets.filter _ = _
    rw [hnotes, htks, hca]
  have hnotes2 : (delete_task tid now sys).1.notes
      = sys.notes.filter (fun n =>
          !(((sys.tickets.filter (delSelected task.created_at sys.notes)).map
              (fun t => t.note_id)).contains n.note_id)) := by
    rw [heq]
    show (remove_task_schedule tid sys).1.notes.filter _ = _
    rw [hnotes, htks, hca]
  refine ⟨by rw [heq], ?_, htickets, hnotes2, ?_, ?_⟩
  · rw [heq]
    show ((remove_task_schedule tid sys).1.tasks.filter
      (fun x => !(x.id == tid))).find? (fun t => t.id == tid) = none
    exact find?_filter_ne _ tid
  · intro t htm hlt
    rw [htickets, List.mem_filter]
    refine ⟨htm, ?_⟩
    simp [delSelected, Nat.not_le.mpr hlt]
  · intro n hnm hno
    rw [hnotes2, List.mem_filter]
    refine ⟨hnm, ?_⟩
    simp only [Bool.not_eq_true']
    rw [List.contains_eq_any_beq]
    rw [List.any_eq_false]
    intro x hx
    simp only [List.mem_map, List.mem_filter] at hx
    obtain ⟨t, ⟨htm, hsel⟩, hxid⟩ := hx
    subst hxid
    exact fun hcon => (hno t htm hsel) (by
      have h2 := hcon
      simp at h2
      exact h2.symm)

/-- C3 witness: in a store with one earlier ticket (persisted before the
task), one later ticket with its post, and one unrelated post, deletion
keeps the earlier ticket and the unreferenced post and removes the rest. -/
theorem c3_witness :
    (getTask sysC3w 1 = some taskC3w) ∧
    ((delete_task 1 100 sysC3w).2 = true ∧
     getTask (delete_task 1 100 sysC3w).1 1 = none ∧
     (delete_task 1 100 sysC3w).1.tickets
       = sysC3w.tickets.filter
           (fun t => !(delSelected taskC3w.created_at sysC3w.notes t)) ∧
     (delete_task 1 100 sysC3w).1.notes
       = sysC3w.notes.filter (fun n =>
           !(((sysC3w.tickets.filter
                (delSelected taskC3w.created_at sysC3w.notes)).map
               (fun t => t.note_id)).contains n.note_id)) ∧
     (∀ t ∈ sysC3w.tickets, t.created_at < taskC3w.created_at →
         t ∈ (delete_task 1 100 sysC3w).1.tickets) ∧
     (∀ n ∈ sysC3w.notes,
         (∀ t ∈ sysC3w.tickets,
            delSelected taskC3w.created_at sysC3w.notes t = true →
            t.note_id ≠ n.note_id) →
         n ∈ (delete_task 1 100 sysC3w).1.notes)) :=
  ⟨by decide, c3_delete_cascade_amended sysC3w 1 100 taskC3w (by decide)⟩


/-- C6 (the code evaluated at the failing input): `notify_clients` places
each published Event on the single shared `event_queue`; the first
subscriber's `event_queue.get` removes it destructively, so a second
concurrently connected subscriber finds the queue empty and receives only a
heartbeat frame — the published Event is absent from its stream.  This
contradicts the claimed independent per-subscriber streams and
`notify_clients`' own docstring, which says the event is sent to all
connected clients. -/
theorem c6_shared_queue_drops_events :
    (stream_get (notify_clients evC6 sysEmpty)).2 = some evC6 ∧
    (stream_get (stream_get (notify_clients evC6 sysEmpty)).1).2 = none ∧
    (stream_get (stream_get (notify_clients evC6 sysEmpty)).1).1.queue = [] := by
  decide


theorem checkInsertNote_tasks (fid title : String) (now : Nat) (sys : Sys) :
    (checkInsertNote fid title now sys).1.tasks = sys.tasks := by
  unfold checkInsertNote
  split <;> rfl

theorem checkInsertNote_queue (fid title : String) (now : Nat) (sys : Sys) :
    (checkInsertNote fid title now sys).1.queue = sys.queue := by
  unfold checkInsertNote
  split <;> rfl

theorem checkInsertNote_task_jobs (fid title : String) (now : Nat) (sys : Sys) :
    (checkInsertNote fid title now sys).1.task_jobs = sys.task_jobs := by
  unfold checkInsertNote
  split <;> rfl

theorem checkInsertTicket_tasks (fid : String) (info : TicketInfo) (now : Nat)
    (sys : Sys) :
    (checkInsertTicket fid info now sys).1.tasks = sys.tasks := by
  unfold checkInsertTicket
  split
  · rfl
  · split <;> rfl

theorem checkInsertTicket_queue (fid : String) (info : TicketInfo) (now : Nat)
    (sys : Sys) :
    (checkInsertTicket fid info now sys).1.queue = sys.queue := by
  unfold checkInsertTicket
  split
  · rfl
  · split <;> rfl

theorem checkInsertTicket_task_jobs (fid : String) (info : TicketInfo) (now : Nat)
    (sys : Sys) :
    (checkInsertTicket fid info now sys).1.task_jobs = sys.task_jobs := by
  unfold checkInsertTicket
  split
  · rfl
  · split <;> rfl

theorem process_single_feed_tasks (classify : String → TicketInfo) (now : Nat)
    (feed : Feed) (sys : Sys) :
    (process_single_feed classify now feed sys).1.tasks = sys.tasks := by
  unfold process_single_feed
  split
  · rfl
  · split
    · split
      · rfl
      · dsimp only
        split
        · split
          · split <;> simp [checkInsertTicket_tasks, checkInsertNote_tasks]
          · simp [checkInsertNote_tasks]
        · simp [checkInsertNote_tasks]
    · rfl

theorem process_single_feed_queue (classify : String → TicketInfo) (now : Nat)
    (feed : Feed) (sys : Sys) :
    (process_single_feed classify now feed sys).1.queue = sys.queue := by
  unfold process_single_feed
  split
  · rfl
  · split
    · split
      · rfl
      · dsimp only
        split
        · split
          · split <;> simp [checkInsertTicket_queue, checkInsertNote_queue]
          · simp [checkInsertNote_queue]
        · simp [checkInsertNote_queue]
    · rfl

theorem process_single_feed_task_jobs (classify : String → TicketInfo) (now : Nat)
    (feed : Feed) (sys : Sys) :
    (process_single_feed classify now feed sys).1.task_jobs = sys.task_jobs := by
  unfold process_single_feed
  split
  · rfl
  · split
    · split
      · rfl
      · dsimp only
        split
        · split
          · split <;> simp [checkInsertTicket_task_jobs, checkInsertNote_task_jobs]
          · simp [checkInsertNote_task_jobs]
        · simp [checkInsertNote_task_jobs]
    · rfl

theorem processFeeds_tasks (classify : String → TicketInfo) (now : Nat)
    (feeds : List Feed) (sys : Sys) :
    (processFeeds classify now feeds sys).1.tasks = sys.tasks := by
  suffices hgen : ∀ acc : Sys × Nat,
      (List.foldl (fun st f =>
        let pr := process_single_feed classify now f st.1
        (pr.1, st.2 + (if pr.2.success && pr.2.is_ticket then 1 else 0)))
        acc feeds).1.tasks = acc.1.tasks by
    exact hgen (sys, 0)
  induction feeds with
  | nil => intro acc; rfl
  | cons f fs ih =>
    intro acc
    rw [List.foldl_cons, ih]
    exact process_single_feed_tasks classify now f acc.1

theorem processFeeds_queue (classify : String → TicketInfo) (now : Nat)
    (feeds : List Feed) (sys : Sys) :
    (processFeeds classify now feeds sys).1.queue = sys.queue := by
  suffices hgen : ∀ acc : Sys × Nat,
      (List.foldl (fun st f =>
        let pr := process_single_feed classify now f st.1
        (pr.1, st.2 + (if pr.2.success && pr.2.is_ticket then 1 else 0)))
        acc feeds).1.queue = acc.1.queue by
    exact hgen (sys, 0)
  induction feeds with
  | nil => intro acc; rfl
  | cons f fs ih =>
    intro acc
    rw [List.foldl_cons, ih]
    exact process_single_feed_queue classify now f acc.1

theorem processFeeds_task_jobs (classify : String → TicketInfo) (now : Nat)
    (feeds : List Feed) (sys : Sys) :
    (processFeeds classify now feeds sys).1.task_jobs = sys.task_jobs := by
  suffices hgen : ∀ acc : Sys × Nat,
      (List.foldl (fun st f =>
        let pr := process_single_feed classify now f st.1
        (pr.1, st.2 + (if pr.2.success && pr.2.is_ticket then 1 else 0)))
        acc feeds).1.task_jobs = acc.1.task_jobs by
    exact hgen (sys, 0)
  induction feeds with
  | nil => intro acc; rfl
  | cons f fs ih =>
    intro acc
    rw [List.foldl_cons, ih]
    exact process_single_feed_task_jobs classify now f acc.1

theorem getTask_notify (e : Event) (sys : Sys) (tid : Nat) :
    getTask (notify_clients e sys) tid = getTask sys tid := rfl

theorem getTask_processFeeds (classify : String → TicketInfo) (now : Nat)
    (feeds : List Feed) (sys : Sys) (tid : Nat) :
    getTask (processFeeds classify now feeds sys).1 tid = getTask sys tid := by
  unfold getTask
  rw [processFeeds_tasks]


theorem notify_queue (e : Event) (sys : Sys) :
    (notify_clients e sys).queue = sys.queue ++ [e] := rfl

theorem updateTask_queue (sys : Sys) (t : WorkflowExecution) :
    (updateTask sys t).queue = sys.queue := rfl

theorem scheduled_ingestion_getTask (tid : Nat) (keyword : String)
    (optResp : OptResponse) (fetch : FetchResult)
    (classify : String → TicketInfo) (now : Nat) (sys : Sys)
    (t : WorkflowExecution) (h : getTask sys tid = some t) :
    ∃ m, getTask (scheduled_ingestion tid keyword optResp fetch classify now sys)
        tid = some { t with message := m } := by
  unfold scheduled_ingestion
  cases fetch with
  | err e =>
    simp only [getTask_notify, h]
    exact ⟨"执行失败: " ++ e, getTask_updateTask _ tid t _ h rfl⟩
  | ok feeds =>
    simp only [getTask_processFeeds, getTask_notify, h]
    exact ⟨_, getTask_updateTask _ tid t _
      (by rw [getTask_processFeeds]; exact h) rfl⟩

theorem scheduled_ingestion_queue (tid : Nat) (keyword : String)
    (optResp : OptResponse) (fetch : FetchResult)
    (classify : String → TicketInfo) (now : Nat) (sys : Sys)
    (t : WorkflowExecution) (h : getTask sys tid = some t) :
    ∃ delta, (scheduled_ingestion tid keyword optResp fetch classify now sys).queue
      = sys.queue ++ delta := by
  unfold scheduled_ingestion
  cases fetch with
  | err e =>
    simp only [getTask_notify, h]
    exact ⟨_, by
      rw [notify_queue, updateTask_queue, notify_queue, List.append_assoc]⟩
  | ok feeds =>
    simp only [getTask_processFeeds, getTask_notify, h]
    exact ⟨_, by
      rw [notify_queue, updateTask_queue, processFeeds_queue, notify_queue,
        notify_queue, List.append_assoc, List.append_assoc]⟩

/-- C8: the timer callback's gate.  (i) When the task's status is anything
other than exactly `running` (`paused`, `stopped`, `failed`, `completed`),
the callback returns the state unchanged: no ingestion, no event, no task
mutation.  (ii) When the status is exactly `running`, the callback equals:
bump the run counter and the last/next-run timestamps, publish one
`task_update` event carrying those values, then perform exactly one
ingestion run on the result; afterwards the stored task carries the bumped
counter and timestamps and the queue has grown by that `task_update` event
followed by the ingestion run's events. -/
theorem c8_timer_fire_gate :
    (∀ (tid : Nat) (keyword : String) (optResp : OptResponse)
       (fetch : FetchResult) (classify : String → TicketInfo) (now : Nat)
       (sys : Sys) (task : WorkflowExecution),
       getTask sys tid = some task → task.status ≠ "running" →
       execute_scheduled_task tid keyword optResp fetch classify now sys = sys) ∧
    (∀ (tid : Nat) (keyword : String) (optResp : OptResponse)
       (fetch : FetchResult) (classify : String → TicketInfo) (now : Nat)
       (sys : Sys) (task : WorkflowExecution),
       getTask sys tid = some task → task.status = "running" →
       (execute_scheduled_task tid keyword optResp fetch classify now sys =
          scheduled_ingestion tid keyword optResp fetch classify now
            (notify_clients
              { etype := "task_update", task_id := tid, status := some "running",
                message := some ("第 " ++ toString (task.run_count + 1)
                  ++ " 次定时执行"),
                run_count := some (task.run_count + 1), last_run_at := some now,
                next_run_at := some (now + task.schedule_interval),
                timestamp := now }
              (updateTask sys { task with
                last_run_at := some now, run_count := task.run_count + 1,
                next_run_at := some (now + task.schedule_interval),
                message := "第 " ++ toString (task.run_count + 1)
                  ++ " 次定时执行" }))) ∧
       (∃ m, getTask (execute_scheduled_task tid keyword optResp fetch classify
            now sys) tid
          = some { task with
              last_run_at := some now, run_count := task.run_count + 1,
              next_run_at := some (now + task.schedule_interval),
              message := m }) ∧
       (∃ tail, (execute_scheduled_task tid keyword optResp fetch classify
            now sys).queue
          = sys.queue ++
            ({ etype := "task_update", task_id := tid, status := some "running",
               message := some ("第 " ++ toString (task.run_count + 1)
                 ++ " 次定时执行"),
               run_count := some (task.run_count + 1), last_run_at := some now,
               next_run_at := some (now + task.schedule_interval),
               timestamp := now } :: tail))) := by
  constructor
  · intro tid keyword optResp fetch classify now sys task h hst
    unfold execute_scheduled_task
    simp only [h]
    by_cases hp : task.status = "paused"
    · rw [if_neg (by simp [hp]), if_pos hp]
    · rw [if_pos (by simp [hst, hp])]
  · intro tid keyword optResp fetch classify now sys task h hst
    have e : execute_scheduled_task tid keyword optResp fetch classify now sys =
        scheduled_ingestion tid keyword optResp fetch classify now
          (notify_clients
            { etype := "task_update", task_id := tid, status := some "running",
              message := some ("第 " ++ toString (task.run_count + 1)
                ++ " 次定时执行"),
              run_count := some (task.run_count + 1), last_run_at := some now,
              next_run_at := some (now + task.schedule_interval),
              timestamp := now }
            (updateTask sys { task with
              last_run_at := some now, run_count := task.run_count + 1,
              next_run_at := some (now + task.schedule_interval),
              message := "第 " ++ toString (task.run_count + 1)
                ++ " 次定时执行" })) := by
      unfold execute_scheduled_task
      simp only [h]
      rw [if_neg (by simp [hst]), if_neg (by rw [hst]; decide)]
    have h1 : getTask
        (notify_clients
          { etype := "task_update", task_id := tid, status := some "running",
            message := some ("第 " ++ toString (task.run_count + 1)
              ++ " 次定时执行"),
            run_count := some (task.run_count + 1), last_run_at := some now,
            next_run_at := some (now + task.schedule_interval),
            timestamp := now }
          (updateTask sys { task with
            last_run_at := some now, run_count := task.run_count + 1,
            next_run_at := some (now + task.schedule_interval),
            message := "第 " ++ toString (task.run_count + 1)
              ++ " 次定时执行" })) tid
        = some { task with
            last_run_at := some now, run_count := task.run_count + 1,
            next_run_at := some (now + task.schedule_interval),
            message := "第 " ++ toString (task.run_count + 1)
              ++ " 次定时执行" } := by
      rw [getTask_notify]
      exact getTask_updateTask sys tid task _ h rfl
    refine ⟨e, ?_, ?_⟩
    · rw [e]
      obtain ⟨m, hm⟩ := scheduled_ingestion_getTask tid keyword optResp fetch
        classify now _ _ h1
      exact ⟨m, hm⟩
    · rw [e]
      obtain ⟨delta, hd⟩ := scheduled_ingestion_queue tid keyword optResp fetch
        classify now _ _ h1
      refine ⟨delta, ?_⟩
      rw [hd, notify_queue, updateTask_queue, List.append_assoc]
      rfl


/-- C8 witness: a paused task's timer fire is a no-op, and a running task's
timer fire performs the counter/timestamp bump, the `task_update` event and
one ingestion run. -/
theorem c8_witness :
    (execute_scheduled_task 1 "kw" (.exn "x") (.ok []) classifyNeg 100 sysP
       = sysP) ∧
    ((execute_scheduled_task 1 "kw" (.exn "x") (.err "t") classifyNeg 100 sysT =
        scheduled_ingestion 1 "kw" (.exn "x") (.err "t") classifyNeg 100
          (notify_clients
            { etype := "task_update", task_id := 1, status := some "running",
              message := some ("第 " ++ toString (task1ex.run_count + 1)
                ++ " 次定时执行"),
              run_count := some (task1ex.run_count + 1), last_run_at := some 100,
              next_run_at := some (100 + task1ex.schedule_interval),
              timestamp := 100 }
            (updateTask sysT { task1ex with
              last_run_at := some 100, run_count := task1ex.run_count + 1,
              next_run_at := some (100 + task1ex.schedule_interval),
              message := "第 " ++ toString (task1ex.run_count + 1)
                ++ " 次定时执行" }))) ∧
     (∃ m, getTask (execute_scheduled_task 1 "kw" (.exn "x") (.err "t")
          classifyNeg 100 sysT) 1
        = some { task1ex with
            last_run_at := some 100, run_count := task1ex.run_count + 1,
            next_run_at := some (100 + task1ex.schedule_interval),
            message := m }) ∧
     (∃ tail, (execute_scheduled_task 1 "kw" (.exn "x") (.err "t")
          classifyNeg 100 sysT).queue
        = sysT.queue ++
          ({ etype := "task_update", task_id := 1, status := some "running",
             message := some ("第 " ++ toString (task1ex.run_count + 1)
               ++ " 次定时执行"),
             run_count := some (task1ex.run_count + 1), last_run_at := some 100,
             next_run_at := some (100 + task1ex.schedule_interval),
             timestamp := 100 } :: tail))) :=
  ⟨c8_timer_fire_gate.1 1 "kw" (.exn "x") (.ok []) classifyNeg 100 sysP
     { task1ex with status := "paused" } (by decide) (by decide),
   c8_timer_fire_gate.2 1 "kw" (.exn "x") (.err "t") classifyNeg 100 sysT
     task1ex (by decide) rfl⟩


theorem add_sched_notes (tid iv now : Nat) (sys : Sys) :
    (add_task_schedule tid iv now sys).notes = sys.notes := by
  unfold add_task_schedule
  cases hg : getTask { sys with
      task_jobs := if sys.task_jobs.contains tid then sys.task_jobs
        else sys.task_jobs ++ [tid],
      paused := sys.paused.erase tid } tid with
  | none => simp only [hg]
  | some t => simp only [hg]; rfl

theorem add_sched_tickets (tid iv now : Nat) (sys : Sys) :
    (add_task_schedule tid iv now sys).tickets = sys.tickets := by
  unfold add_task_schedule
  cases hg : getTask { sys with
      task_jobs := if sys.task_jobs.contains tid then sys.task_jobs
        else sys.task_jobs ++ [tid],
      paused := sys.paused.erase tid } tid with
  | none => simp only [hg]
  | some t => simp only [hg]; rfl

theorem add_sched_queue (tid iv now : Nat) (sys : Sys) :
    (add_task_schedule tid iv now sys).queue = sys.queue := by
  unfold add_task_schedule
  cases hg : getTask { sys with
      task_jobs := if sys.task_jobs.contains tid then sys.task_jobs
        else sys.task_jobs ++ [tid],
      paused := sys.paused.erase tid } tid with
  | none => simp only [hg]
  | some t => simp only [hg]; rfl

theorem add_sched_getTask (tid iv now : Nat) (sys : Sys)
    (t : WorkflowExecution) (h : getTask sys tid = some t) :
    getTask (add_task_schedule tid iv now sys) tid
      = some { t with next_run_at := some (now + iv) } := by
  unfold add_task_schedule
  have h1 : getTask { sys with
      task_jobs := if sys.task_jobs.contains tid then sys.task_jobs
        else sys.task_jobs ++ [tid],
      paused := sys.paused.erase tid } tid = some t := h
  simp only [h1]
  exact getTask_updateTask _ tid t _ h1 rfl


/-- C2 counterexample: a timer-triggered run whose fetch raises leaves the
task status `running`, not `failed` as the claim requires for every
ingestion run. -/
theorem c2_counterexample :
    ((getTask (execute_scheduled_task 1 "kw" (.exn "x") (.err "timeout")
        classifyNeg 100 sysT) 1).map (fun t => t.status)) = some "running" ∧
    ((getTask (execute_scheduled_task 1 "kw" (.exn "x") (.err "timeout")
        classifyNeg 100 sysT) 1).map (fun t => t.status)) ≠ some "failed" := by
  decide

/-- C2 (amended): on a fetch-stage exception, a creation-triggered run sets
the task status to `failed` (with code 500), publishes one `task_update`
event with status `failed` and a non-empty error message, and processes no
posts; a timer-triggered run instead leaves the status unchanged at
`running`, records the error in the task's message field, publishes a
`task_update` event whose status field still says `running` but whose
message is the non-empty error text, processes no posts, and does not remove
the recurring timer. -/
theorem c2_fetch_failure_amended :
    (∀ (tid : Nat) (keyword : String) (optResp : OptResponse) (e : String)
       (classify : String → TicketInfo) (now : Nat) (sys : Sys)
       (task : WorkflowExecution),
       getTask sys tid = some task → task.status = "running" →
       (getTask (execute_scheduled_task tid keyword optResp (.err e) classify
            now sys) tid
          = some { task with
              last_run_at := some now, run_count := task.run_count + 1,
              next_run_at := some (now + task.schedule_interval),
              message := "执行失败: " ++ e }) ∧
       (execute_scheduled_task tid keyword optResp (.err e) classify now
          sys).notes = sys.notes ∧
       (execute_scheduled_task tid keyword optResp (.err e) classify now
          sys).tickets = sys.tickets ∧
       (execute_scheduled_task tid keyword optResp (.err e) classify now
          sys).task_jobs = sys.task_jobs ∧
       (∃ e1 e2, (execute_scheduled_task tid keyword optResp (.err e) classify
            now sys).queue
          = sys.queue ++ [e1, e2,
            { etype := "task_update", task_id := tid, status := some "running",
              message := some ("执行失败: " ++ e), timestamp := now }]) ∧
       ("执行失败: " ++ e) ≠ "") ∧
    (∀ (keyword : String) (optResp : OptResponse) (e : String)
       (classify : String → TicketInfo) (now : Nat) (sys : Sys),
       (execute_search_task keyword optResp (.err e) classify now sys).2
          = false ∧
       (getTask (execute_search_task keyword optResp (.err e) classify now
            sys).1 (nextTaskId sys)
          = some { createdTask keyword optResp now sys with
              next_run_at := some (now + 60), status := "failed",
              code := 500 }) ∧
       (execute_search_task keyword optResp (.err e) classify now
          sys).1.notes = sys.notes ∧
       (execute_search_task keyword optResp (.err e) classify now
          sys).1.tickets = sys.tickets ∧
       (∃ e1, (execute_search_task keyword optResp (.err e) classify now
            sys).1.queue
          = sys.queue ++ [e1,
            { etype := "task_update", task_id := nextTaskId sys,
              status := some "failed",
              message := some ("MCP 服务调用失败: " ++ e), timestamp := now }]) ∧
       ("MCP 服务调用失败: " ++ e) ≠ "") := by
  constructor
  · intro tid keyword optResp e classify now sys task h hst
    have hfull : execute_scheduled_task tid keyword optResp (.err e) classify
        now sys
        = notify_clients
            { etype := "task_update", task_id := tid, status := some "running",
              message := some ("执行失败: " ++ e), timestamp := now }
            (updateTask
              (notify_clients
                { etype := "task_update", task_id := tid,
                  status := some "running",
                  message := some ("正在搜索小红书内容（"
                    ++ optimize_search_keyword keyword optResp ++ "）..."),
                  timestamp := now }
                (notify_clients
                  { etype := "task_update", task_id := tid,
                    status := some "running",
                    message := some ("第 " ++ toString (task.run_count + 1)
                      ++ " 次定时执行"),
                    run_count := some (task.run_count + 1),
                    last_run_at := some now,
                    next_run_at := some (now + task.schedule_interval),
                    timestamp := now }
                  (updateTask sys { task with
                    last_run_at := some now, run_count := task.run_count + 1,
                    next_run_at := some (now + task.schedule_interval),
                    message := "第 " ++ toString (task.run_count + 1)
                      ++ " 次定时执行" })))
              { task with
                last_run_at := some now, run_count := task.run_count + 1,
                next_run_at := some (now + task.schedule_interval),
                message := "执行失败: " ++ e }) := by
      unfold execute_scheduled_task
      simp only [h]
      rw [if_neg (by simp [hst]), if_neg (by rw [hst]; decide)]
      unfold scheduled_ingestion
      simp only [getTask_notify,
        getTask_updateTask sys tid task
          { task with
            last_run_at := some now, run_count := task.run_count + 1,
            next_run_at := some (now + task.schedule_interval),
            message := "第 " ++ toString (task.run_count + 1)
              ++ " 次定时执行" } h rfl]
    have hne : ("执行失败: " ++ e) ≠ "" := by
      intro hcon
      have hl := congrArg String.length hcon
      rw [String.length_append] at hl
      have h5 : 0 < ("执行失败: " : String).length := by decide
      have h0 : ("" : String).length = 0 := by decide
      omega
    refine ⟨?_, ?_, ?_, ?_, ?_, hne⟩
    · rw [hfull, getTask_notify]
      refine getTask_updateTask _ tid
        { task with
          last_run_at := some now, run_count := task.run_count + 1,
          next_run_at := some (now + task.schedule_interval),
          message := "第 " ++ toString (task.run_count + 1) ++ " 次定时执行" }
        _ ?_ rfl
      rw [getTask_notify, getTask_notify]
      exact getTask_updateTask sys tid task _ h rfl
    · rw [hfull]; rfl
    · rw [hfull]; rfl
    · rw [hfull]; rfl
    · exact ⟨{ etype := "task_update", task_id := tid,
               status := some "running",
               message := some ("第 " ++ toString (task.run_count + 1)
                 ++ " 次定时执行"),
               run_count := some (task.run_count + 1),
               last_run_at := some now,
               next_run_at := some (now + task.schedule_interval),
               timestamp := now },
             { etype := "task_update", task_id := tid,
               status := some "running",
               message := some ("正在搜索小红书内容（"
                 ++ optimize_search_keyword keyword optResp ++ "）..."),
               timestamp := now },
             by
               rw [hfull, notify_queue, updateTask_queue, notify_queue,
                 notify_queue, updateTask_queue, List.append_assoc,
                 List.append_assoc, List.singleton_append,
                 List.singleton_append]⟩
  · intro keyword optResp e classify now sys
    have h0 : (sys.tasks ++ [createdTask keyword optResp now sys]).find?
        (fun x => x.id == (createdTask keyword optResp now sys).id)
        = some (createdTask keyword optResp now sys) :=
      find?_append_fresh sys.tasks (createdTask keyword optResp now sys)
        (fun t ht => nextTaskId_fresh sys t ht)
    have h1 : getTask { sys with
        tasks := sys.tasks ++ [createdTask keyword optResp now sys] }
        (nextTaskId sys) = some (createdTask keyword optResp now sys) := h0
    have h2 : getTask (add_task_schedule (nextTaskId sys) 60 now
        { sys with
          tasks := sys.tasks ++ [createdTask keyword optResp now sys] })
        (nextTaskId sys)
        = some { createdTask keyword optResp now sys with
            next_run_at := some (now + 60) } :=
      add_sched_getTask _ _ _ _ _ h1
    have hfull : execute_search_task keyword optResp (.err e) classify now sys
        = (notify_clients
            { etype := "task_update", task_id := nextTaskId sys,
              status := some "failed",
              message := some ("MCP 服务调用失败: " ++ e), timestamp := now }
            (updateTask
              (notify_clients (searchStartEvent keyword optResp now
                  (nextTaskId sys))
                (add_task_schedule (nextTaskId sys) 60 now
                  { sys with
                    tasks := sys.tasks
                      ++ [createdTask keyword optResp now sys] }))
              { createdTask keyword optResp now sys with
                next_run_at := some (now + 60), status := "failed",
                code := 500 }), false) := by
      unfold execute_search_task
      simp only [getTask_notify, h2]
    have hne : ("MCP 服务调用失败: " ++ e) ≠ "" := by
      intro hcon
      have hl := congrArg String.length hcon
      rw [String.length_append] at hl
      have h9 : 0 < ("MCP 服务调用失败: " : String).length := by decide
      have h0 : ("" : String).length = 0 := by decide
      omega
    refine ⟨?_, ?_, ?_, ?_, ?_, hne⟩
    · rw [hfull]
    · rw [hfull]
      show getTask (notify_clients _ (updateTask _ _)) _ = _
      rw [getTask_notify]
      refine getTask_updateTask _ (nextTaskId sys)
        { createdTask keyword optResp now sys with
          next_run_at := some (now + 60) } _ ?_ rfl
      rw [getTask_notify]
      exact h2
    · rw [hfull]
      show (notify_clients _ (updateTask _ _)).notes = sys.notes
      rw [show ∀ (ev : Event) (s : Sys), (notify_clients ev s).notes = s.notes
        from fun _ _ => rfl]
      show (add_task_schedule _ _ _ _).notes = sys.notes
      rw [add_sched_notes]
    · rw [hfull]
      show (notify_clients _ (updateTask _ _)).tickets = sys.tickets
      rw [show ∀ (ev : Event) (s : Sys), (notify_clients ev s).tickets
          = s.tickets from fun _ _ => rfl]
      show (add_task_schedule _ _ _ _).tickets = sys.tickets
      rw [add_sched_tickets]
    · refine ⟨searchStartEvent keyword optResp now (nextTaskId sys), ?_⟩
      rw [hfull]
      show (notify_clients _ (updateTask _ _)).queue = _
      rw [notify_queue, updateTask_queue, notify_queue, add_sched_queue]
      simp

/-- C2 witness: concrete timer-triggered run with a failing fetch. -/
theorem c2_witness :
    (getTask (execute_scheduled_task 1 "kw" (.exn "x") (.err "timeout")
        classifyNeg 100 sysT) 1
      = some { task1ex with
          last_run_at := some 100, run_count := task1ex.run_count + 1,
          next_run_at := some (100 + task1ex.schedule_interval),
          message := "执行失败: " ++ "timeout" }) ∧
    (execute_scheduled_task 1 "kw" (.exn "x") (.err "timeout") classifyNeg 100
       sysT).notes = sysT.notes ∧
    (execute_scheduled_task 1 "kw" (.exn "x") (.err "timeout") classifyNeg 100
       sysT).tickets = sysT.tickets ∧
    (execute_scheduled_task 1 "kw" (.exn "x") (.err "timeout") classifyNeg 100
       sysT).task_jobs = sysT.task_jobs ∧
    (∃ e1 e2, (execute_scheduled_task 1 "kw" (.exn "x") (.err "timeout")
        classifyNeg 100 sysT).queue
      = sysT.queue ++ [e1, e2,
        { etype := "task_update", task_id := 1, status := some "running",
          message := some ("执行失败: " ++ "timeout"), timestamp := 100 }]) ∧
    ("执行失败: " ++ "timeout") ≠ "" :=
  c2_fetch_failure_amended.1 1 "kw" (.exn "x") "timeout" classifyNeg 100 sysT
    task1ex (by decide) rfl


/-- C7 counterexample: a timer-triggered run whose fetch returns zero posts
leaves the task status `running` (the claim requires `completed`) and
publishes four events for the run (the claim requires exactly one). -/
theorem c7_counterexample :
    ((getTask (execute_scheduled_task 1 "kw" (.exn "x") (.ok []) classifyNeg
        100 sysT) 1).map (fun t => t.status)) = some "running" ∧
    (execute_scheduled_task 1 "kw" (.exn "x") (.ok []) classifyNeg 100
       sysT).queue.length = sysT.queue.length + 4 := by
  decide

/-- C7 (amended): with zero fetched posts, a creation-triggered run sets the
task to `completed`, publishes exactly one informational event after the
start announcement, returns failure (`False`, not a summary object), and
touches no posts or tickets.  A timer-triggered run with zero fetched posts
does not complete the task: the status stays `running`, the run finishes
normally with a "found 0 new tickets" message, and four `task_update` events
are published. -/
theorem c7_zero_posts_amended :
    (∀ (keyword : String) (optResp : OptResponse)
       (classify : String → TicketInfo) (now : Nat) (sys : Sys),
       (execute_search_task keyword optResp (.ok []) classify now sys).2
          = false ∧
       (getTask (execute_search_task keyword optResp (.ok []) classify now
            sys).1 (nextTaskId sys)
          = some { createdTask keyword optResp now sys with
              next_run_at := some (now + 60), status := "completed" }) ∧
       (execute_search_task keyword optResp (.ok []) classify now
          sys).1.notes = sys.notes ∧
       (execute_search_task keyword optResp (.ok []) classify now
          sys).1.tickets = sys.tickets ∧
       (execute_search_task keyword optResp (.ok []) classify now sys).1.queue
          = sys.queue ++ [searchStartEvent keyword optResp now (nextTaskId sys),
            { etype := "task_update", task_id := nextTaskId sys,
              status := some "completed", message := some "未找到相关数据",
              timestamp := now }]) ∧
    (∀ (tid : Nat) (keyword : String) (optResp : OptResponse)
       (classify : String → TicketInfo) (now : Nat) (sys : Sys)
       (task : WorkflowExecution),
       getTask sys tid = some task → task.status = "running" →
       (getTask (execute_scheduled_task tid keyword optResp (.ok []) classify
            now sys) tid
          = some { task with
              last_run_at := some now, run_count := task.run_count + 1,
              next_run_at := some (now + task.schedule_interval),
              message := "第 " ++ toString (task.run_count + 1)
                ++ " 次执行完成，发现 " ++ toString (0 : Nat) ++ " 条新票务" }) ∧
       (execute_scheduled_task tid keyword optResp (.ok []) classify now
          sys).notes = sys.notes ∧
       (execute_scheduled_task tid keyword optResp (.ok []) classify now
          sys).tickets = sys.tickets ∧
       (∃ e1 e2 e3, (execute_scheduled_task tid keyword optResp (.ok [])
            classify now sys).queue
          = sys.queue ++ [e1, e2, e3,
            { etype := "task_update", task_id := tid, status := some "running",
              message := some ("第 " ++ toString (task.run_count + 1)
                ++ " 次执行完成，发现 " ++ toString (0 : Nat) ++ " 条新票务"),
              timestamp := now }])) := by
  constructor
  · intro keyword optResp classify now sys
    have h0 : (sys.tasks ++ [createdTask keyword optResp now sys]).find?
        (fun x => x.id == (createdTask keyword optResp now sys).id)
        = some (createdTask keyword optResp now sys) :=
      find?_append_fresh sys.tasks (createdTask keyword optResp now sys)
        (fun t ht => nextTaskId_fresh sys t ht)
    have h1 : getTask { sys with
        tasks := sys.tasks ++ [createdTask keyword optResp now sys] }
        (nextTaskId sys) = some (createdTask keyword optResp now sys) := h0
    have h2 : getTask (add_task_schedule (nextTaskId sys) 60 now
        { sys with
          tasks := sys.tasks ++ [createdTask keyword optResp now sys] })
        (nextTaskId sys)
        = some { createdTask keyword optResp now sys with
            next_run_at := some (now + 60) } :=
      add_sched_getTask _ _ _ _ _ h1
    have hfull : execute_search_task keyword optResp (.ok []) classify now sys
        = (notify_clients
            { etype := "task_update", task_id := nextTaskId sys,
              status := some "completed", message := some "未找到相关数据",
              timestamp := now }
            (updateTask
              (notify_clients (searchStartEvent keyword optResp now
                  (nextTaskId sys))
                (add_task_schedule (nextTaskId sys) 60 now
                  { sys with
                    tasks := sys.tasks
                      ++ [createdTask keyword optResp now sys] }))
              { createdTask keyword optResp now sys with
                next_run_at := some (now + 60), status := "completed" }),
           false) := by
      unfold execute_search_task
      simp only [getTask_notify, h2, List.isEmpty_nil, if_true]
    refine ⟨?_, ?_, ?_, ?_, ?_⟩
    · rw [hfull]
    · rw [hfull]
      show getTask (notify_clients _ (updateTask _ _)) _ = _
      rw [getTask_notify]
      refine getTask_updateTask _ (nextTaskId sys)
        { createdTask keyword optResp now sys with
          next_run_at := some (now + 60) } _ ?_ rfl
      rw [getTask_notify]
      exact h2
    · rw [hfull]
      show (notify_clients _ (updateTask _ _)).notes = sys.notes
      rw [show ∀ (ev : Event) (s : Sys), (notify_clients ev s).notes = s.notes
        from fun _ _ => rfl]
      show (add_task_schedule _ _ _ _).notes = sys.notes
      rw [add_sched_notes]
    · rw [hfull]
      show (notify_clients _ (updateTask _ _)).tickets = sys.tickets
      rw [show ∀ (ev : Event) (s : Sys), (notify_clients ev s).tickets
          = s.tickets from fun _ _ => rfl]
      show (add_task_schedule _ _ _ _).tickets = sys.tickets
      rw [add_sched_tickets]
    · rw [hfull]
      show (notify_clients _ (updateTask _ _)).queue = _
      rw [notify_queue, updateTask_queue, notify_queue, add_sched_queue]
      simp
  · intro tid keyword optResp classify now sys task h hst
    have hfull : execute_scheduled_task tid keyword optResp (.ok []) classify
        now sys
        = notify_clients
            { etype := "task_update", task_id := tid, status := some "running",
              message := some ("第 " ++ toString (task.run_count + 1)
                ++ " 次执行完成，发现 " ++ toString (0 : Nat) ++ " 条新票务"),
              timestamp := now }
            (updateTask
              (notify_clients
                { etype := "task_update", task_id := tid,
                  status := some "running",
                  message := some ("找到 " ++ toString (0 : Nat)
                    ++ " 条笔记，正在分析..."),
                  timestamp := now }
                (notify_clients
                  { etype := "task_update", task_id := tid,
                    status := some "running",
                    message := some ("正在搜索小红书内容（"
                      ++ optimize_search_keyword keyword optResp ++ "）..."),
                    timestamp := now }
                  (notify_clients
                    { etype := "task_update", task_id := tid,
                      status := some "running",
                      message := some ("第 " ++ toString (task.run_count + 1)
                        ++ " 次定时执行"),
                      run_count := some (task.run_count + 1),
                      last_run_at := some now,
                      next_run_at := some (now + task.schedule_interval),
                      timestamp := now }
                    (updateTask sys { task with
                      last_run_at := some now,
                      run_count := task.run_count + 1,
                      next_run_at := some (now + task.schedule_interval),
                      message := "第 " ++ toString (task.run_count + 1)
                        ++ " 次定时执行" }))))
              { task with
                last_run_at := some now, run_count := task.run_count + 1,
                next_run_at := some (now + task.schedule_interval),
                message := "第 " ++ toString (task.run_count + 1)
                  ++ " 次执行完成，发现 " ++ toString (0 : Nat)
                  ++ " 条新票务" }) := by
      unfold execute_scheduled_task
      simp only [h]
      rw [if_neg (by simp [hst]), if_neg (by rw [hst]; decide)]
      unfold scheduled_ingestion
      simp only [processFeeds, List.foldl_nil, List.length_nil,
        getTask_notify,
        getTask_updateTask sys tid task
          { task with
            last_run_at := some now, run_count := task.run_count + 1,
            next_run_at := some (now + task.schedule_interval),
            message := "第 " ++ toString (task.run_count + 1)
              ++ " 次定时执行" } h rfl]
    refine ⟨?_, ?_, ?_, ?_⟩
    · rw [hfull, getTask_notify]
      refine getTask_updateTask _ tid
        { task with
          last_run_at := some now, run_count := task.run_count + 1,
          next_run_at := some (now + task.schedule_interval),
          message := "第 " ++ toString (task.run_count + 1) ++ " 次定时执行" }
        _ ?_ rfl
      rw [getTask_notify, getTask_notify, getTask_notify]
      exact getTask_updateTask sys tid task _ h rfl
    · rw [hfull]; rfl
    · rw [hfull]; rfl
    · exact ⟨{ etype := "task_update", task_id := tid,
               status := some "running",
               message := some ("第 " ++ toString (task.run_count + 1)
                 ++ " 次定时执行"),
               run_count := some (task.run_count + 1),
               last_run_at := some now,
               next_run_at := some (now + task.schedule_interval),
               timestamp := now },
             { etype := "task_update", task_id := tid,
               status := some "running",
               message := some ("正在搜索小红书内容（"
                 ++ optimize_search_keyword keyword optResp ++ "）..."),
               timestamp := now },
             { etype := "task_update", task_id := tid,
               status := some "running",
               message := some ("找到 " ++ toString (0 : Nat)
                 ++ " 条笔记，正在分析..."),
               timestamp := now },
             by
               rw [hfull, notify_queue, updateTask_queue, notify_queue,
                 notify_queue, notify_queue, updateTask_queue,
                 List.append_assoc, List.append_assoc, List.append_assoc,
                 List.singleton_append, List.singleton_append,
                 List.singleton_append]⟩

/-- C7 witness: concrete timer-triggered run with an empty fetch result. -/
theorem c7_witness :
    (getTask (execute_scheduled_task 1 "kw" (.exn "x") (.ok []) classifyNeg
        100 sysT) 1
      = some { task1ex with
          last_run_at := some 100, run_count := task1ex.run_count + 1,
          next_run_at := some (100 + task1ex.schedule_interval),
          message := "第 " ++ toString (task1ex.run_count + 1)
            ++ " 次执行完成，发现 " ++ toString (0 : Nat) ++ " 条新票务" }) ∧
    (execute_scheduled_task 1 "kw" (.exn "x") (.ok []) classifyNeg 100
       sysT).notes = sysT.notes ∧
    (execute_scheduled_task 1 "kw" (.exn "x") (.ok []) classifyNeg 100
       sysT).tickets = sysT.tickets ∧
    (∃ e1 e2 e3, (execute_scheduled_task 1 "kw" (.exn "x") (.ok [])
         classifyNeg 100 sysT).queue
      = sysT.queue ++ [e1, e2, e3,
        { etype := "task_update", task_id := 1, status := some "running",
          message := some ("第 " ++ toString (task1ex.run_count + 1)
            ++ " 次执行完成，发现 " ++ toString (0 : Nat) ++ " 条新票务"),
          timestamp := 100 }]) :=
  c7_zero_posts_amended.2 1 "kw" (.exn "x") classifyNeg 100 sysT task1ex
    (by decide) rfl


theorem process_pos_new (classify : String → TicketInfo) (now : Nat)
    (feed : Feed) (sys : Sys) (fid : String) (card : NoteCard)
    (info : TicketInfo) (d : Option PDate)
    (hmt : feed.modelType = "note") (hid : feed.id = some fid)
    (hcard : feed.noteCard = some card) (hfid : fid ≠ "")
    (hany : sys.notes.any (fun n => n.note_id == fid) = false)
    (htk : sys.tickets.any (fun t => t.note_id == fid) = false)
    (hcls : classify card.displayTitle = info)
    (hpos : info.is_ticket_resale = true)
    (hd : parseEventDate info.event_date = some d) :
    process_single_feed classify now feed sys =
      ({ sys with
          notes := sys.notes ++ [⟨fid, card.displayTitle, noteUrl fid, now⟩],
          tickets := sys.tickets ++ [⟨sys.tickets.length + 1, fid,
            info.is_ticket_resale, info.event_name, info.city, d, info.area,
            info.price, info.quantity, info.contact, info.notes, now⟩] },
       { success := true, is_ticket := true,
         ticket := some (mkSnapshot ⟨sys.tickets.length + 1, fid,
           info.is_ticket_resale, info.event_name, info.city, d, info.area,
           info.price, info.quantity, info.contact, info.notes, now⟩
           (noteUrl fid)) }) := by
  simp only [process_single_feed, hmt, hid, hcard, checkInsertNote, hany,
    ne_eq, not_true_eq_false, if_false, if_neg hfid, if_true,
    Bool.false_eq_true, hcls, hpos, checkInsertTicket, htk, hd]

theorem handle_result_pos (tid now : Nat) (sys : Sys) (tc : Nat)
    (snap : TicketSnapshot) :
    handle_result tid 1 now (sys, 0, tc)
        { success := true, is_ticket := true, ticket := some snap }
      = (notify_clients (progressEvent tid 1 1 (tc + 1) now)
          (notify_clients
            { etype := "ticket_update", task_id := tid, ticket := some snap,
              timestamp := now } sys), 1, tc + 1) := by
  unfold handle_result
  norm_num

/-- C4 counterexample: a timer-triggered run on one new post with a positive
classification persists the TicketOffer, but publishes no `ticket_update`
event at all (only four `task_update` events) — the claim requires a
`ticket_update` event in timer-triggered runs too. -/
theorem c4_counterexample :
    ((execute_scheduled_task 1 "kw" (.exn "x") (.ok [feed1]) classifyPos 100
        sysT).queue.countP (fun ev => ev.etype == "ticket_update")) = 0 ∧
    ticketCount "f1" (execute_scheduled_task 1 "kw" (.exn "x") (.ok [feed1])
        classifyPos 100 sysT) = 1 ∧
    (execute_scheduled_task 1 "kw" (.exn "x") (.ok [feed1]) classifyPos 100
        sysT).queue.length = sysT.queue.length + 4 := by
  decide


theorem beq_tu_ticketu : (("task_update" : String) == "ticket_update") = false := by
  decide

/-- C4 (amended): (i) a `ProcessPost` call on a new post with a positive
resale verdict and no existing TicketOffer persists the new TicketOffer and
returns `success, isTicket=true` with the full snapshot — this holds in both
run kinds, which both call `process_single_feed`.  (ii) A creation-triggered
run on one such post additionally publishes exactly one `ticket_update`
event carrying the full snapshot (between the start announcement and the
progress/completion events).  (iii) A timer-triggered run on the same post
persists the TicketOffer but publishes no `ticket_update` event at all: only
`task_update` events are emitted on that path. -/
theorem c4_positive_classification_amended :
    (∀ (classify : String → TicketInfo) (now : Nat) (feed : Feed) (sys : Sys)
       (fid : String) (card : NoteCard) (info : TicketInfo) (d : Option PDate),
       feed.modelType = "note" → feed.id = some fid →
       feed.noteCard = some card → fid ≠ "" →
       sys.notes.any (fun n => n.note_id == fid) = false →
       sys.tickets.any (fun t => t.note_id == fid) = false →
       classify card.displayTitle = info → info.is_ticket_resale = true →
       parseEventDate info.event_date = some d →
       process_single_feed classify now feed sys =
         ({ sys with
             notes := sys.notes ++ [⟨fid, card.displayTitle, noteUrl fid, now⟩],
             tickets := sys.tickets ++ [⟨sys.tickets.length + 1, fid,
               info.is_ticket_resale, info.event_name, info.city, d, info.area,
               info.price, info.quantity, info.contact, info.notes, now⟩] },
          { success := true, is_ticket := true,
            ticket := some (mkSnapshot ⟨sys.tickets.length + 1, fid,
              info.is_ticket_resale, info.event_name, info.city, d, info.area,
              info.price, info.quantity, info.contact, info.notes, now⟩
              (noteUrl fid)) })) ∧
    (∀ (keyword : String) (optResp : OptResponse)
       (classify : String → TicketInfo) (now : Nat) (feed : Feed) (sys : Sys)
       (fid : String) (card : NoteCard) (info : TicketInfo) (d : Option PDate),
       feed.modelType = "note" → feed.id = some fid →
       feed.noteCard = some card → fid ≠ "" →
       sys.notes.any (fun n => n.note_id == fid) = false →
       sys.tickets.any (fun t => t.note_id == fid) = false →
       classify card.displayTitle = info → info.is_ticket_resale = true →
       parseEventDate info.event_date = some d →
       (execute_search_task keyword optResp (.ok [feed]) classify now sys).2
          = true ∧
       (execute_search_task keyword optResp (.ok [feed]) classify now
          sys).1.tickets
          = sys.tickets ++ [⟨sys.tickets.length + 1, fid,
              info.is_ticket_resale, info.event_name, info.city, d, info.area,
              info.price, info.quantity, info.contact, info.notes, now⟩] ∧
       (execute_search_task keyword optResp (.ok [feed]) classify now
          sys).1.notes
          = sys.notes ++ [⟨fid, card.displayTitle, noteUrl fid, now⟩] ∧
       (execute_search_task keyword optResp (.ok [feed]) classify now
          sys).1.queue
          = sys.queue
            ++ [searchStartEvent keyword optResp now (nextTaskId sys),
              { etype := "ticket_update", task_id := nextTaskId sys,
                ticket := some (mkSnapshot ⟨sys.tickets.length + 1, fid,
                  info.is_ticket_resale, info.event_name, info.city, d,
                  info.area, info.price, info.quantity, info.contact,
                  info.notes, now⟩ (noteUrl fid)),
                timestamp := now },
              progressEvent (nextTaskId sys) 1 1 1 now,
              { etype := "task_update", task_id := nextTaskId sys,
                status := some "completed",
                message := some ("搜索完成，共处理 " ++ toString (1 : Nat)
                  ++ " 条数据，发现 " ++ toString (1 : Nat) ++ " 条票务信息"),
                timestamp := now }]) ∧
    (∀ (tid : Nat) (keyword : String) (optResp : OptResponse)
       (classify : String → TicketInfo) (now : Nat) (feed : Feed) (sys : Sys)
       (task : WorkflowExecution)
       (fid : String) (card : NoteCard) (info : TicketInfo) (d : Option PDate),
       getTask sys tid = some task → task.status = "running" →
       feed.modelType = "note" → feed.id = some fid →
       feed.noteCard = some card → fid ≠ "" →
       sys.notes.any (fun n => n.note_id == fid) = false →
       sys.tickets.any (fun t => t.note_id == fid) = false →
       classify card.displayTitle = info → info.is_ticket_resale = true →
       parseEventDate info.event_date = some d →
       (execute_scheduled_task tid keyword optResp (.ok [feed]) classify now
          sys).tickets
          = sys.tickets ++ [⟨sys.tickets.length + 1, fid,
              info.is_ticket_resale, info.event_name, info.city, d, info.area,
              info.price, info.quantity, info.contact, info.notes, now⟩] ∧
       (execute_scheduled_task tid keyword optResp (.ok [feed]) classify now
          sys).queue.countP (fun ev => ev.etype == "ticket_update")
          = sys.queue.countP (fun ev => ev.etype == "ticket_update")) := by
  refine ⟨process_pos_new, ?_, ?_⟩
  · intro keyword optResp classify now feed sys fid card info d
      hmt hid hcard hfid hany htk hcls hpos hd
    have h0 : (sys.tasks ++ [createdTask keyword optResp now sys]).find?
        (fun x => x.id == (createdTask keyword optResp now sys).id)
        = some (createdTask keyword optResp now sys) :=
      find?_append_fresh sys.tasks (createdTask keyword optResp now sys)
        (fun t ht => nextTaskId_fresh sys t ht)
    have h0a : (sys.tasks ++ [createdTask keyword optResp now sys]).find?
        (fun x => x.id == nextTaskId sys)
        = some (createdTask keyword optResp now sys) := h0
    have h1 : getTask { sys with
        tasks := sys.tasks ++ [createdTask keyword optResp now sys],
        task_jobs := if sys.task_jobs.contains (nextTaskId sys)
          then sys.task_jobs else sys.task_jobs ++ [nextTaskId sys],
        paused := sys.paused.erase (nextTaskId sys) } (nextTaskId sys)
        = some (createdTask keyword optResp now sys) := h0
    have hadd : add_task_schedule (nextTaskId sys) 60 now
        { sys with tasks := sys.tasks ++ [createdTask keyword optResp now sys] }
        = updateTask { sys with
            tasks := sys.tasks ++ [createdTask keyword optResp now sys],
            task_jobs := if sys.task_jobs.contains (nextTaskId sys)
              then sys.task_jobs else sys.task_jobs ++ [nextTaskId sys],
            paused := sys.paused.erase (nextTaskId sys) }
          { createdTask keyword optResp now sys with
            next_run_at := some (now + 60) } := by
      unfold add_task_schedule
      simp only [h1]
    have hfind2 : (((sys.tasks ++ [createdTask keyword optResp now sys]).map
        (fun x => if x.id == (createdTask keyword optResp now sys).id then
          { createdTask keyword optResp now sys with
            next_run_at := some (now + 60) } else x)).find?
        (fun x => x.id == nextTaskId sys))
        = some { createdTask keyword optResp now sys with
            next_run_at := some (now + 60) } :=
      find?_map_overwrite (sys.tasks ++ [createdTask keyword optResp now sys])
        (nextTaskId sys) (createdTask keyword optResp now sys)
        { createdTask keyword optResp now sys with
          next_run_at := some (now + 60) } h0a rfl
    have hstep := process_pos_new classify now feed
      { sys with
        tasks := ((sys.tasks ++ [createdTask keyword optResp now sys]).map
          (fun x => if x.id == (createdTask keyword optResp now sys).id then
            { createdTask keyword optResp now sys with
              next_run_at := some (now + 60) } else x)),
        task_jobs := if sys.task_jobs.contains (nextTaskId sys)
          then sys.task_jobs else sys.task_jobs ++ [nextTaskId sys],
        paused := sys.paused.erase (nextTaskId sys),
        queue := sys.queue
          ++ [searchStartEvent keyword optResp now (nextTaskId sys)] }
      fid card info d hmt hid hcard hfid hany htk hcls hpos hd
    refine ⟨?_, ?_, ?_, ?_⟩ <;>
    · unfold execute_search_task
      simp only [hadd, notify_clients, updateTask] at hstep ⊢
      simp only [List.isEmpty_cons, Bool.false_eq_true, if_false,
        search_loop, List.foldl_cons, List.foldl_nil, List.length_cons,
        List.length_nil, Nat.zero_add, hstep, handle_result_pos,
        notify_clients, getTask, hfind2, Bool.and_self, if_true,
        progressEvent, List.append_assoc, List.singleton_append,
        List.cons_append]
      try rfl
  · intro tid keyword optResp classify now feed sys task fid card info d
      h hst hmt hid hcard hfid hany htk hcls hpos hd
    have hS4 := find?_map_overwrite sys.tasks tid task
      { task with
        last_run_at := some now, run_count := task.run_count + 1,
        next_run_at := some (now + task.schedule_interval),
        message := "第 " ++ toString (task.run_count + 1) ++ " 次定时执行" }
      h rfl
    have hstep := process_pos_new classify now feed
      (notify_clients
        { etype := "task_update", task_id := tid, status := some "running",
          message := some ("找到 " ++ toString ([feed].length)
            ++ " 条笔记，正在分析..."),
          timestamp := now }
        (notify_clients
          { etype := "task_update", task_id := tid, status := some "running",
            message := some ("正在搜索小红书内容（"
              ++ optimize_search_keyword keyword optResp ++ "）..."),
            timestamp := now }
          (notify_clients
            { etype := "task_update", task_id := tid, status := some "running",
              message := some ("第 " ++ toString (task.run_count + 1)
                ++ " 次定时执行"),
              run_count := some (task.run_count + 1), last_run_at := some now,
              next_run_at := some (now + task.schedule_interval),
              timestamp := now }
            (updateTask sys { task with
              last_run_at := some now, run_count := task.run_count + 1,
              next_run_at := some (now + task.schedule_interval),
              message := "第 " ++ toString (task.run_count + 1)
                ++ " 次定时执行" }))))
      fid card info d hmt hid hcard hfid hany htk hcls hpos hd
    constructor
    · unfold execute_scheduled_task
      simp only [h]
      rw [if_neg (by simp [hst]), if_neg (by rw [hst]; decide)]
      unfold scheduled_ingestion
      simp only [notify_clients, updateTask, List.length_cons,
        List.length_nil, Nat.zero_add] at hstep ⊢
      simp only [processFeeds, List.foldl_cons, List.foldl_nil, hstep,
        getTask, hS4, Bool.and_self, if_true, notify_clients, updateTask]
    · unfold execute_scheduled_task
      simp only [h]
      rw [if_neg (by simp [hst]), if_neg (by rw [hst]; decide)]
      unfold scheduled_ingestion
      simp only [notify_clients, updateTask, List.length_cons,
        List.length_nil, Nat.zero_add] at hstep ⊢
      simp only [processFeeds, List.foldl_cons, List.foldl_nil, hstep,
        getTask, hS4, Bool.and_self, if_true, notify_clients, updateTask]
      simp [List.countP_append, List.countP_cons, beq_tu_ticketu]

/-- C4 witness: a fresh post with a positive verdict and no date field is
persisted as a ticket with the full snapshot returned. -/
theorem c4_witness :
    process_single_feed classifyPos 4 feed1 sysEmpty =
      ({ sysEmpty with
          notes := sysEmpty.notes ++ [⟨"f1", "title1", noteUrl "f1", 4⟩],
          tickets := sysEmpty.tickets ++ [⟨sysEmpty.tickets.length + 1, "f1",
            infoPos.is_ticket_resale, infoPos.event_name, infoPos.city, none,
            infoPos.area, infoPos.price, infoPos.quantity, infoPos.contact,
            infoPos.notes, 4⟩] },
       { success := true, is_ticket := true,
         ticket := some (mkSnapshot ⟨sysEmpty.tickets.length + 1, "f1",
           infoPos.is_ticket_resale, infoPos.event_name, infoPos.city, none,
           infoPos.area, infoPos.price, infoPos.quantity, infoPos.contact,
           infoPos.notes, 4⟩ (noteUrl "f1")) }) :=
  c4_positive_classification_amended.1 classifyPos 4 feed1 sysEmpty "f1"
    ⟨"title1"⟩ infoPos none rfl rfl rfl (by decide) (by decide) (by decide)
    rfl rfl rfl

end TicketHunter
